import Mathlib

/-!
# Verification of `gzipstreamwriter` (Go)

Shallow embedding of the `gzipstreamwriter` package: the CRC32 point-update
and combiner (`hash/crc32` semantics plus `crc32Combine`), the gzip blob
parser (`getHeaderLength`, `getDeflateSlice`), and the `GzipStreamWriter`
state machine (`Write`, `WriteCompressed`, `Flush`, `Close`, `Reset`).

Bytes are modelled as `Nat` (values < 256 in actual Go executions; the
definitions mask exactly where the Go code's fixed-width types mask).
Machine `uint32` arithmetic is `Nat` with explicit masking by `% 2^32`
or bitwise operations, mirroring the source.
-/

namespace GzipStream

/-- 2^32, the modulus of Go's `uint32` arithmetic. -/
def two32 : Nat := 4294967296

/-- Reduce a `Nat` to Go `uint32` range, used where the source stores into a
`uint32` field. -/
def mask32 (n : Nat) : Nat := n % two32

/-- The IEEE CRC32 polynomial constant `0xedb88320` used by Go's
`crc32.IEEETable`. -/
def polyIEEE : Nat := 0xedb88320

/-- `0xffffffff`, the pre/post inversion constant of CRC32 (Go's `^crc` on a
`uint32` is `crc ^^^ 0xffffffff`). -/
def ffff32 : Nat := 0xffffffff

/-- One bit-step of the CRC32 table generator: shift right, conditionally
xoring in the polynomial (Go `crc32.simpleMakeTable` inner loop). -/
def crcStep (r : Nat) : Nat :=
  if r &&& 1 = 1 then (r >>> 1) ^^^ polyIEEE else r >>> 1

/-- Entry `i` of Go's `crc32.IEEETable`: eight generator steps applied to the
index byte. -/
def crcTableEntry (i : Nat) : Nat := crcStep^[8] i

/-- One byte of the raw (uninverted) CRC32 LFSR:
`crc = tab[byte(crc)^v] ^ (crc >> 8)` from Go `crc32.simpleUpdate`'s loop
body (without the surrounding pre/post inversion). -/
def rawStep (r b : Nat) : Nat :=
  crcTableEntry ((r &&& 255) ^^^ (b &&& 255)) ^^^ (r >>> 8)

/-- The raw CRC32 register run over a byte string (the loop of Go
`crc32.simpleUpdate`, without the pre/post inversion). -/
def rawUpdate (r : Nat) (p : List Nat) : Nat := p.foldl rawStep r

/-- Go `crc32.Update(crc, crc32.IEEETable, p)`: invert, run the raw LFSR,
invert back. -/
def crc32Update (crc : Nat) (p : List Nat) : Nat :=
  rawUpdate (crc ^^^ ffff32) p ^^^ ffff32

/-- `CRC32(p)` with the standard zero seed, i.e. `crc32.Update(0, tab, p)`
(equal to Go `crc32.ChecksumIEEE`). -/
def crc32 (p : List Nat) : Nat := crc32Update 0 p

/-- Source `crc32Combine` (the shipped, loop-free version): extend `front` by
`length` zero bytes through the raw register
(`crc32.Update(0xffffffff^front, tab, zeroes) ^ 0xffffffff`), then xor with
`back`. -/
def crc32Combine (front back : Nat) (length : Nat) : Nat :=
  (crc32Update (ffff32 ^^^ front) (List.replicate length 0) ^^^ ffff32) ^^^ back

/-! ## Linearity of the CRC32 register over GF(2) -/

theorem shiftRight_xor_distrib (a b k : Nat) :
    (a ^^^ b) >>> k = (a >>> k) ^^^ (b >>> k) := by
  apply Nat.eq_of_testBit_eq
  intro i
  simp [Nat.testBit_shiftRight, Nat.testBit_xor]

theorem bool_xor_and (a b c : Bool) :
    ((a ^^ b) && c) = ((a && c) ^^ (b && c)) := by
  cases a <;> cases b <;> cases c <;> rfl

theorem and_xor_distrib_right' (a b c : Nat) :
    (a ^^^ b) &&& c = (a &&& c) ^^^ (b &&& c) := by
  apply Nat.eq_of_testBit_eq
  intro i
  simp [Nat.testBit_xor, Nat.testBit_and, bool_xor_and]

theorem xor_left_comm' (a b c : Nat) : a ^^^ (b ^^^ c) = b ^^^ (a ^^^ c) := by
  rw [← Nat.xor_assoc, Nat.xor_comm a b, Nat.xor_assoc]

theorem and_one_eq_zero_or_one (a : Nat) : a &&& 1 = 0 ∨ a &&& 1 = 1 := by
  have h : a &&& 1 ≤ 1 := @Nat.and_le_right a 1
  omega

/-- `crcStep` is GF(2)-linear. -/
theorem crcStep_xor (a b : Nat) :
    crcStep (a ^^^ b) = crcStep a ^^^ crcStep b := by
  unfold crcStep
  have hab : (a ^^^ b) &&& 1 = (a &&& 1) ^^^ (b &&& 1) := and_xor_distrib_right' a b 1
  have hs : (a ^^^ b) >>> 1 = (a >>> 1) ^^^ (b >>> 1) := shiftRight_xor_distrib a b 1
  rcases and_one_eq_zero_or_one a with ha | ha <;>
    rcases and_one_eq_zero_or_one b with hb | hb <;>
      simp [ha, hb, hab, hs, Nat.xor_assoc, Nat.xor_comm, xor_left_comm',
        Nat.xor_cancel_left]

/-- Iterates of `crcStep` are GF(2)-linear. -/
theorem crcStep_iterate_xor (n a b : Nat) :
    crcStep^[n] (a ^^^ b) = crcStep^[n] a ^^^ crcStep^[n] b := by
  induction n generalizing a b with
  | zero => simp
  | succ n ih =>
    rw [Function.iterate_succ_apply, Function.iterate_succ_apply,
      Function.iterate_succ_apply, crcStep_xor, ih]

/-- The CRC table is GF(2)-linear in its index. -/
theorem crcTableEntry_xor (i j : Nat) :
    crcTableEntry (i ^^^ j) = crcTableEntry i ^^^ crcTableEntry j :=
  crcStep_iterate_xor 8 i j

/-- `rawStep` is jointly GF(2)-linear in register and input byte. -/
theorem rawStep_xor (r₁ r₂ b₁ b₂ : Nat) :
    rawStep (r₁ ^^^ r₂) (b₁ ^^^ b₂) = rawStep r₁ b₁ ^^^ rawStep r₂ b₂ := by
  unfold rawStep
  rw [and_xor_distrib_right' r₁ r₂ 255, and_xor_distrib_right' b₁ b₂ 255,
    shiftRight_xor_distrib r₁ r₂ 8]
  have : (r₁ &&& 255) ^^^ (r₂ &&& 255) ^^^ ((b₁ &&& 255) ^^^ (b₂ &&& 255))
      = ((r₁ &&& 255) ^^^ (b₁ &&& 255)) ^^^ ((r₂ &&& 255) ^^^ (b₂ &&& 255)) := by
    simp [Nat.xor_assoc, Nat.xor_comm, xor_left_comm']
  rw [this, crcTableEntry_xor]
  simp [Nat.xor_assoc, Nat.xor_comm, xor_left_comm']

/-- Splitting a raw register run: xoring a register perturbation `b` in at the
start is the same as running `b` separately over a zero message of the same
length and xoring the results. -/
theorem rawUpdate_xor_zero (M : List Nat) (a b : Nat) :
    rawUpdate (a ^^^ b) M
      = rawUpdate a M ^^^ rawUpdate b (List.replicate M.length 0) := by
  induction M generalizing a b with
  | nil => simp [rawUpdate]
  | cons m M ih =>
    have hstep : rawStep (a ^^^ b) m = rawStep a m ^^^ rawStep b 0 := by
      have := rawStep_xor a b m 0
      simpa using this
    simp only [rawUpdate, List.foldl_cons, List.length_cons, List.replicate_succ]
    rw [hstep]
    exact ih (rawStep a m) (rawStep b 0)

theorem rawUpdate_append (r : Nat) (X Y : List Nat) :
    rawUpdate r (X ++ Y) = rawUpdate (rawUpdate r X) Y := by
  simp [rawUpdate, List.foldl_append]

/-- Extending a checksum: updating `CRC32(X)` with `Y` gives `CRC32(X ++ Y)`. -/
theorem crc32Update_append (X Y : List Nat) :
    crc32Update (crc32 X) Y = crc32 (X ++ Y) := by
  unfold crc32 crc32Update
  rw [rawUpdate_append]
  congr 1
  have h0 : (0 : Nat) ^^^ ffff32 = ffff32 := by simp
  rw [h0]
  have : rawUpdate ffff32 X ^^^ ffff32 ^^^ ffff32 = rawUpdate ffff32 X := by
    rw [Nat.xor_assoc]
    simp
  rw [this]

/-- Core combiner identity: the shipped `crc32Combine` computes the checksum
of the concatenation. -/
theorem crc32Combine_append (X Y : List Nat) :
    crc32Combine (crc32 X) (crc32 Y) Y.length = crc32 (X ++ Y) := by
  unfold crc32Combine
  have hfront : crc32Update (ffff32 ^^^ crc32 X) (List.replicate Y.length 0) ^^^ ffff32
      = rawUpdate (crc32 X) (List.replicate Y.length 0) := by
    unfold crc32Update
    have h1 : ffff32 ^^^ crc32 X ^^^ ffff32 = crc32 X := by
      rw [Nat.xor_comm ffff32 (crc32 X), Nat.xor_assoc]
      simp
    rw [h1, Nat.xor_assoc]
    simp
  rw [hfront]
  have hXY : crc32 (X ++ Y)
      = rawUpdate (crc32 X) (List.replicate Y.length 0) ^^^ crc32 Y := by
    unfold crc32 crc32Update
    rw [rawUpdate_append]
    have h0 : (0 : Nat) ^^^ ffff32 = ffff32 := by simp
    rw [h0]
    have hreg : rawUpdate ffff32 X = crc32 X ^^^ ffff32 := by
      unfold crc32 crc32Update
      rw [h0, Nat.xor_assoc]
      simp
    rw [hreg, Nat.xor_comm (crc32 X) ffff32,
      rawUpdate_xor_zero Y ffff32 (crc32 X)]
    simp [Nat.xor_assoc, Nat.xor_comm, xor_left_comm', Nat.xor_cancel_left]
  rw [hXY]

/-! ## Blob parser (`getHeaderLength`, `getDeflateSlice`) -/

/-- Go `bytes.IndexByte`: index of the first occurrence of `b` in `l`, or
`-1` when absent. -/
def indexByte : List Nat → Nat → Int
  | [], _ => -1
  | x :: xs, b =>
    if x = b then 0
    else
      let r := indexByte xs b
      if r < 0 then -1 else r + 1

/-- Little-endian `u16` read `binary.LittleEndian.Uint16(p[i:i+2])`
(out-of-range reads give 0; the source always guards them, see C9). -/
def readLe16 (p : List Nat) (i : Nat) : Nat :=
  p.getD i 0 ||| (p.getD (i + 1) 0 <<< 8)

/-- Little-endian `u32` read `binary.LittleEndian.Uint32(p[i:i+4])`
(out-of-range reads give 0; the source always guards them, see C9). -/
def readLe32 (p : List Nat) (i : Nat) : Nat :=
  p.getD i 0 ||| (p.getD (i + 1) 0 <<< 8) ||| (p.getD (i + 2) 0 <<< 16) |||
    (p.getD (i + 3) 0 <<< 24)

/-- Little-endian 4-byte serialisation, `binary.LittleEndian.PutUint32`. -/
def le32 (v : Nat) : List Nat :=
  [v &&& 255, (v >>> 8) &&& 255, (v >>> 16) &&& 255, (v >>> 24) &&& 255]

/-- The FEXTRA block of source `getHeaderLength`: `headerLen += 2`, bounds
check, read the little-endian length, `headerLen += x`, bounds check.
`none` is the function's `-1` early return. -/
def extraStage (gzBlob : List Nat) : Option Nat :=
  if gzBlob.length < 12 then none
  else
    let extraFieldLength := readLe16 gzBlob 10
    if gzBlob.length < 12 + extraFieldLength then none
    else some (12 + extraFieldLength)

/-- The FNAME / FCOMMENT block of source `getHeaderLength`:
`bytes.IndexByte(gzBlob[headerLen:], 0)`, fail when absent, then
`headerLen += endField` (note: not `endField + 1` — see claim C3) and a
bounds check. -/
def scanZeroTerm (gzBlob : List Nat) (headerLen : Nat) : Option Nat :=
  let endField := indexByte (gzBlob.drop headerLen) 0
  if endField < 0 then none
  else
    let h := headerLen + endField.toNat
    if gzBlob.length < h then none else some h

/-- Source `getHeaderLength`: walk the gzip header of `gzBlob`, returning its
length, or a negative value on error.  Mirrors the source's sequential
`headerLen` accumulation and safety checks; the `flag` bit constants are
`flagExtra = 4`, `flagName = 8`, `flagComment = 16`, `flagHdrCrc = 2`. -/
def getHeaderLength (gzBlob : List Nat) : Int :=
  let len := gzBlob.length
  if len < 10 then -1
  else if gzBlob.getD 0 0 ≠ 31 ∨ gzBlob.getD 1 0 ≠ 139 ∨ gzBlob.getD 2 0 ≠ 8 then -1
  else
    let flag := gzBlob.getD 3 0
    match (if flag &&& 4 ≠ 0 then extraStage gzBlob else some 10) with
    | none => -1
    | some h1 =>
      match (if flag &&& 8 ≠ 0 then scanZeroTerm gzBlob h1 else some h1) with
      | none => -1
      | some h2 =>
        match (if flag &&& 16 ≠ 0 then scanZeroTerm gzBlob h2 else some h2) with
        | none => -1
        | some h3 =>
          if flag &&& 2 ≠ 0 then
            if len < h3 + 2 then -1 else (h3 + 2 : Nat)
          else (h3 : Nat)

/-- Source `getDeflateSlice`: the DEFLATE payload `gzblob[headerLength :
 len-8]`, or `none` when the header does not parse or the blob is too short
for the trailer. -/
def getDeflateSlice (gzblob : List Nat) : Option (List Nat) :=
  let headerLength := getHeaderLength gzblob
  if headerLength < 0 then none
  else if gzblob.length < headerLength.toNat + 8 then none
  else some ((gzblob.take (gzblob.length - 8)).drop headerLength.toNat)

/-! ## Access-checked parser variants (for claim C9)

Same control flow as the source functions, but every byte access and every
slice is performed through `Option`: a `none` at the outer layer marks an
access that would have been out of bounds in Go (a panic).  Proving them
equal to the total versions above shows every access in the source is
guarded by a preceding length check. -/

/-- Access-checked `extraStage`: the two length-prefix byte reads go
through `Option`. -/
def extraStageChecked (gzBlob : List Nat) : Option (Option Nat) :=
  if gzBlob.length < 12 then some none
  else
    match gzBlob.get? 10, gzBlob.get? 11 with
    | some x0, some x1 =>
      let extraFieldLength := x0 ||| (x1 <<< 8)
      if gzBlob.length < 12 + extraFieldLength then some none
      else some (some (12 + extraFieldLength))
    | _, _ => none

/-- Access-checked `scanZeroTerm`: the slice `gzBlob[headerLen:]` requires
`headerLen ≤ len(gzBlob)` in Go; outer `none` marks the violation. -/
def scanZeroTermChecked (gzBlob : List Nat) (headerLen : Nat) : Option (Option Nat) :=
  if headerLen ≤ gzBlob.length then
    let endField := indexByte (gzBlob.drop headerLen) 0
    if endField < 0 then some none
    else
      let h := headerLen + endField.toNat
      if gzBlob.length < h then some none else some (some h)
  else none

/-- `getHeaderLength` with every index and slice bounds-checked: outer `none`
means an out-of-bounds access would have occurred. -/
def getHeaderLengthChecked (gzBlob : List Nat) : Option Int :=
  if gzBlob.length < 10 then some (-1)
  else
    match gzBlob.get? 0, gzBlob.get? 1, gzBlob.get? 2, gzBlob.get? 3 with
    | some b0, some b1, some b2, some flag =>
      if b0 ≠ 31 ∨ b1 ≠ 139 ∨ b2 ≠ 8 then some (-1)
      else
        match (if flag &&& 4 ≠ 0 then extraStageChecked gzBlob else some (some 10)) with
        | none => none
        | some none => some (-1)
        | some (some h1) =>
          match (if flag &&& 8 ≠ 0 then scanZeroTermChecked gzBlob h1
                 else some (some h1)) with
          | none => none
          | some none => some (-1)
          | some (some h2) =>
            match (if flag &&& 16 ≠ 0 then scanZeroTermChecked gzBlob h2
                   else some (some h2)) with
            | none => none
            | some none => some (-1)
            | some (some h3) =>
              if flag &&& 2 ≠ 0 then
                if gzBlob.length < h3 + 2 then some (-1)
                else some ((h3 + 2 : Nat) : Int)
              else some ((h3 : Nat) : Int)
    | _, _, _, _ => none

/-- `getDeflateSlice` with the payload slice bounds-checked: outer `none`
means the slice `gzblob[headerLength : len-8]` would have been out of range
in Go. -/
def getDeflateSliceChecked (gzblob : List Nat) : Option (Option (List Nat)) :=
  match getHeaderLengthChecked gzblob with
  | none => none
  | some headerLength =>
    if headerLength < 0 then some none
    else if gzblob.length < headerLength.toNat + 8 then some none
    else
      if headerLength.toNat ≤ gzblob.length - 8 then
        some (some ((gzblob.take (gzblob.length - 8)).drop headerLength.toNat))
      else none

/-- The two trailer reads of `WriteCompressed`
(`p[(len(p)-8):(len(p)-4)]` and `p[(len(p)-4):]`), bounds-checked: `none`
when any of the eight byte reads would be out of range. -/
def readTrailerChecked (p : List Nat) : Option (Nat × Nat) :=
  let n := p.length
  match p.get? (n - 8), p.get? (n - 7), p.get? (n - 6), p.get? (n - 5),
      p.get? (n - 4), p.get? (n - 3), p.get? (n - 2), p.get? (n - 1) with
  | some c0, some c1, some c2, some c3, some l0, some l1, some l2, some l3 =>
    some (c0 ||| (c1 <<< 8) ||| (c2 <<< 16) ||| (c3 <<< 24),
      l0 ||| (l1 <<< 8) ||| (l2 <<< 16) ||| (l3 <<< 24))
  | _, _, _, _, _, _, _, _ => none

/-! ## The writer state machine

The destination `io.Writer` is modelled as an append-only list of tagged
output events together with a schedule of injected write failures (one
`Bool` consumed per underlying write call; `true` = that write fails, which
models an arbitrary sink I/O error).  The `flate.Writer` compressor is
modelled abstractly: it buffers the raw bytes handed to `Write` and, on
`Flush`/`Close`, hands the destination one event carrying those pending
bytes — `deflateFlush` stands for the DEFLATE encoding of the pending data
followed by the sync-flush marker `00 00 FF FF`, and `deflateClose` for the
DEFLATE encoding of the pending data terminated by a final (`BFINAL`)
block.  `flate.Writer.Close` always emits at least the final empty block,
so `deflateClose` is always a nonempty write to the sink. -/

/-- The error values of the package that the writer can observe after
construction.  `errSink` stands for any I/O error from the destination
(Go wraps some of these with context; the wrapping is not modelled). -/
inductive GzErr
  | errBlob
  | errSink
  | errHdrNonLatin1
  | errHdrExtraTooLarge
deriving DecidableEq, Repr

/-- One write call arriving at the destination sink. -/
inductive OutEv
  | bytes (bs : List Nat)
  | deflateFlush (pending : List Nat)
  | deflateClose (pending : List Nat)
deriving DecidableEq, Repr

/-- The destination sink: a failure schedule and the list of successful
writes, in order. -/
structure Dest where
  fails : List Bool
  out : List OutEv
deriving DecidableEq, Repr

/-- One write call on the destination: consume one failure token (an empty
schedule means the sink never fails); on success append the event. -/
def destPut (d : Dest) (ev : OutEv) : Dest × Option GzErr :=
  match d.fails with
  | [] => (⟨[], d.out ++ [ev]⟩, none)
  | f :: rest =>
    if f then (⟨rest, d.out⟩, some .errSink)
    else (⟨rest, d.out ++ [ev]⟩, none)

/-- The mutable `gzip.Header` fields of the writer.  `name` and `comment`
are lists of Unicode code points (Go strings); `modTime` is Unix seconds
(`ModTime.After(time.Unix(0, 0))` is modelled as `modTime > 0`). -/
structure GoHeader where
  comment : List Nat
  extra : Option (List Nat)
  modTime : Int
  name : List Nat
  os : Nat
deriving DecidableEq, Repr

/-- The `GzipStreamWriter` struct.  `comp = none` models a nil
`*flate.Writer`; `comp = some pending` models a live compressor whose
buffered (not yet flushed) raw input is `pending`. -/
structure GzipStreamWriter where
  header : GoHeader
  dest : Dest
  comp : Option (List Nat)
  level : Int
  err : Option GzErr
  digest : Nat
  size : Nat
  stateFlags : Nat
deriving DecidableEq, Repr

/-- Source `setWroteHeader`: `stateFlags = (stateFlags & ^0x0001) | flag`. -/
def setWroteHeader (z : GzipStreamWriter) (value : Bool) : GzipStreamWriter :=
  let flag := if value then 1 else 0
  { z with stateFlags := (z.stateFlags &&& 4294967294) ||| flag }

/-- Source `setClosed`: `stateFlags = (stateFlags & ^0x0002) | (flag << 1)`. -/
def setClosed (z : GzipStreamWriter) (value : Bool) : GzipStreamWriter :=
  let flag := if value then 1 else 0
  { z with stateFlags := (z.stateFlags &&& 4294967293) ||| (flag <<< 1) }

/-- Source `setActiveDeflateStream`:
`stateFlags = (stateFlags & ^0x0004) | (flag << 2)`. -/
def setActiveDeflateStream (z : GzipStreamWriter) (value : Bool) : GzipStreamWriter :=
  let flag := if value then 1 else 0
  { z with stateFlags := (z.stateFlags &&& 4294967291) ||| (flag <<< 2) }

/-- Source `checkWroteHeader`: bit 0 of `stateFlags`. -/
def checkWroteHeader (z : GzipStreamWriter) : Bool :=
  z.stateFlags &&& 1 == 1

/-- Source `checkClosed`: bit 1 of `stateFlags`. -/
def checkClosed (z : GzipStreamWriter) : Bool :=
  (z.stateFlags &&& 2) >>> 1 == 1

/-- Source `checkActiveDeflateStream`: bit 2 of `stateFlags`. -/
def checkActiveDeflateStream (z : GzipStreamWriter) : Bool :=
  (z.stateFlags &&& 4) >>> 2 == 1

/-- Source `writeHeaderBytes`: length-prefixed extra bytes (two sink
writes), rejecting fields longer than `0xffff`. -/
def writeHeaderBytes (d : Dest) (b : List Nat) : Dest × Option GzErr :=
  if b.length > 65535 then (d, some .errHdrExtraTooLarge)
  else
    match destPut d (.bytes [b.length &&& 255, (b.length >>> 8) &&& 255]) with
    | (d1, some e) => (d1, some e)
    | (d1, none) => destPut d1 (.bytes b)

/-- Source `writeHeaderString`: reject a NUL or non-Latin-1 code point,
else write the bytes and a NUL terminator (two sink writes). -/
def writeHeaderString (d : Dest) (s : List Nat) : Dest × Option GzErr :=
  if s.any (fun v => v = 0 || v > 255) then (d, some .errHdrNonLatin1)
  else
    match destPut d (.bytes s) with
    | (d1, some e) => (d1, some e)
    | (d1, none) => destPut d1 (.bytes [0])

/-- The 10 fixed gzip header bytes assembled by source `writeHeader`
(`BestCompression = 9 ↦ 2`, `BestSpeed = 1 ↦ 4`, else `0`). -/
def headerBuf (h : GoHeader) (level : Int) : List Nat :=
  [31, 139, 8,
    (if h.extra.isSome then 4 else 0) ||| (if h.name ≠ [] then 8 else 0) |||
      (if h.comment ≠ [] then 16 else 0)] ++
  (if h.modTime > 0 then le32 h.modTime.toNat else [0, 0, 0, 0]) ++
  [if level = 9 then 2 else if level = 1 then 4 else 0, h.os]

/-- The optional extra / name / comment field writes of source `writeHeader`
(they touch only the destination; the first failure aborts the sequence —
in the source it is latched into `z.err` and returned, which
`writeHeaderF` below does with the error returned from here). -/
def writeHeaderFields (d : Dest) (h : GoHeader) : Dest × Option GzErr :=
  match (match h.extra with
         | some b => writeHeaderBytes d b
         | none => (d, none)) with
  | (d1, some e) => (d1, some e)
  | (d1, none) =>
    match (if h.name ≠ [] then writeHeaderString d1 h.name else (d1, none)) with
    | (d2, some e) => (d2, some e)
    | (d2, none) =>
      if h.comment ≠ [] then writeHeaderString d2 h.comment else (d2, none)

/-- Source `writeHeader`: set `wroteHeader`, write the fixed 10 bytes, then
the optional extra / name / comment fields, latching the first error into
`z.err`; finally create the compressor if it is still nil.  The returned
`Nat` is the `n` from the 10-byte write (0 if that write failed). -/
def writeHeaderF (z : GzipStreamWriter) : GzipStreamWriter × Nat × Option GzErr :=
  let z := setWroteHeader z true
  match destPut z.dest (.bytes (headerBuf z.header z.level)) with
  | (d, some e) => ({ z with dest := d, err := some e }, 0, some e)
  | (d, none) =>
    match writeHeaderFields d z.header with
    | (d2, some e) => ({ z with dest := d2, err := some e }, 10, some e)
    | (d2, none) =>
      let z4 := { z with dest := d2 }
      let z5 := if z4.comp.isNone then { z4 with comp := some [] } else z4
      (z5, 10, none)

/-- Source `GzipStreamWriter.Write`: short-circuit on a latched error, lazily
write the header, update `size` (mod 2³²) and `digest`, mark the DEFLATE
stream active and buffer `p` into the compressor (no forced flush). -/
def writeF (z : GzipStreamWriter) (p : List Nat) : GzipStreamWriter × Nat × Option GzErr :=
  match z.err with
  | some e => (z, 0, some e)
  | none =>
    let step1 : GzipStreamWriter × Nat × Option GzErr :=
      if checkWroteHeader z = false then writeHeaderF z else (z, 0, none)
    match step1 with
    | (z1, n, some e) => (z1, n, some e)
    | (z1, _, none) =>
      let z2 := { z1 with size := mask32 (z1.size + p.length),
                          digest := crc32Update z1.digest p }
      let z3 := setActiveDeflateStream z2 true
      let z4 := { z3 with comp := some (z3.comp.getD [] ++ p) }
      (z4, p.length, none)

/-- Source `GzipStreamWriter.WriteCompressed`: short-circuit on a latched
error; write the header (unconditionally, as in the source); sync-flush the
compressor when the DEFLATE stream is active and clear the flag; reject
blobs shorter than 18 bytes or with unparsable headers with `ErrBlob`
(returned but NOT latched); otherwise fold the blob's trailer CRC and
length into `digest`/`size` and write the DEFLATE payload straight to the
destination. -/
def writeCompressedF (z : GzipStreamWriter) (p : List Nat) :
    GzipStreamWriter × Nat × Option GzErr :=
  match z.err with
  | some e => (z, 0, some e)
  | none =>
    match writeHeaderF z with
    | (z1, n, some e) => (z1, n, some e)
    | (z1, n, none) =>
      let afterFlush : GzipStreamWriter × Option GzErr :=
        if checkActiveDeflateStream z1 then
          match destPut z1.dest (.deflateFlush (z1.comp.getD [])) with
          | (d, some e) => ({ z1 with dest := d, err := some e }, some e)
          | (d, none) =>
            (setActiveDeflateStream { z1 with dest := d, comp := some [] } false, none)
        else (z1, none)
      match afterFlush with
      | (z2, some e) => (z2, n, some e)
      | (z2, none) =>
        if p.length < 18 then (z2, n, some .errBlob)
        else
          let trailerChecksum := readLe32 p (p.length - 8)
          let trailerLength := readLe32 p (p.length - 4)
          match getDeflateSlice p with
          | none => (z2, n, some .errBlob)
          | some content =>
            let z3 := { z2 with size := mask32 (z2.size + trailerLength),
                                digest := crc32Combine z2.digest trailerChecksum trailerLength }
            match destPut z3.dest (.bytes content) with
            | (d, some e) => ({ z3 with dest := d, err := some e }, 0, some e)
            | (d, none) => ({ z3 with dest := d }, content.length, none)

/-- Source `GzipStreamWriter.Close`: short-circuit on a latched error;
idempotent once closed; set `closed`; ensure the header via `Write(nil)`;
close the compressor (unconditionally — this always hands the sink a final
DEFLATE block); write the 8-byte trailer `LE32(digest) ++ LE32(size)`. -/
def closeF (z : GzipStreamWriter) : GzipStreamWriter × Option GzErr :=
  match z.err with
  | some e => (z, some e)
  | none =>
    if checkClosed z then (z, none)
    else
      let z0 := setClosed z true
      let step : GzipStreamWriter × Option GzErr :=
        if checkWroteHeader z0 = false then
          let w := writeF z0 []
          (w.1, w.1.err)
        else (z0, none)
      match step with
      | (z1, some e) => (z1, some e)
      | (z1, none) =>
        match destPut z1.dest (.deflateClose (z1.comp.getD [])) with
        | (d, some e) => ({ z1 with dest := d, err := some e }, some e)
        | (d, none) =>
          let z2 := { z1 with dest := d, comp := some [] }
          match destPut z2.dest (.bytes (le32 z2.digest ++ le32 z2.size)) with
          | (d2, some e) => ({ z2 with dest := d2, err := some e }, some e)
          | (d2, none) => ({ z2 with dest := d2, err := none }, none)

/-- Source `GzipStreamWriter.Flush`: short-circuit on a latched error; no-op
once closed; ensure the header via `Write(nil)`; sync-flush the compressor
and clear the active flag (the flag is cleared even when the flush
errors, as in the source). -/
def flushF (z : GzipStreamWriter) : GzipStreamWriter × Option GzErr :=
  match z.err with
  | some e => (z, some e)
  | none =>
    if checkClosed z then (z, none)
    else
      let step : GzipStreamWriter × Option GzErr :=
        if checkWroteHeader z = false then
          let w := writeF z []
          (w.1, w.2.2)
        else (z, none)
      match step with
      | (z1, some _) => (z1, z1.err)
      | (z1, none) =>
        match destPut z1.dest (.deflateFlush (z1.comp.getD [])) with
        | (d, some e) =>
          (setActiveDeflateStream { z1 with dest := d, err := some e } false, some e)
        | (d, none) =>
          (setActiveDeflateStream { z1 with dest := d, comp := some [] } false, none)

/-- Source `init`: reset a cached compressor onto the new destination (its
pending data is discarded), then rebuild the struct with only `w`, `level`
and the compressor carried over; all header fields default (`OS = 255`). -/
def initF (z : GzipStreamWriter) (w : Dest) (level : Int) : GzipStreamWriter :=
  let comp : Option (List Nat) := match z.comp with
    | none => none
    | some _ => some []
  { header := { comment := [], extra := none, modTime := 0, name := [], os := 255 },
    dest := w, comp := comp, level := level, err := none,
    digest := 0, size := 0, stateFlags := 0 }

/-- Source `Reset`: `init` with the preserved level, then (redundantly)
clear the three state flags. -/
def resetF (z : GzipStreamWriter) (w : Dest) : GzipStreamWriter :=
  let z1 := initF z w z.level
  setActiveDeflateStream (setWroteHeader (setClosed z1 false) false) false

/-- Source `NewGzipStreamWriterLevel`: reject levels outside
`[HuffmanOnly = -2, BestCompression = 9]`, else a fresh writer. -/
def newGzipStreamWriterLevel (w : Dest) (level : Int) : Option GzipStreamWriter :=
  if level < -2 ∨ level > 9 then none
  else some (initF { header := { comment := [], extra := none, modTime := 0,
                                 name := [], os := 255 },
                     dest := w, comp := none, level := 0, err := none,
                     digest := 0, size := 0, stateFlags := 0 } w level)

/-- Source `NewGzipStreamWriter`: default compression level (-1). -/
def newGzipStreamWriter (w : Dest) : GzipStreamWriter :=
  (newGzipStreamWriterLevel w (-1)).getD (initF
    { header := { comment := [], extra := none, modTime := 0, name := [], os := 255 },
      dest := w, comp := none, level := 0, err := none,
      digest := 0, size := 0, stateFlags := 0 } w (-1))

/-! ## State-flag bit algebra -/

theorem and_or_distrib_right_nat (a b c : Nat) :
    (a ||| b) &&& c = (a &&& c) ||| (b &&& c) := by
  rw [Nat.and_comm, Nat.and_or_distrib_left, Nat.and_comm c a, Nat.and_comm c b]

/-- Reading bit mask `c` after a masked-or update. -/
theorem setflag_and (f m b c : Nat) :
    ((f &&& m) ||| b) &&& c = (f &&& (m &&& c)) ||| (b &&& c) := by
  rw [and_or_distrib_right_nat, Nat.and_assoc]

theorem checkWroteHeader_setWroteHeader (z : GzipStreamWriter) (v : Bool) :
    checkWroteHeader (setWroteHeader z v) = v := by
  cases v <;>
    simp [checkWroteHeader, setWroteHeader, setflag_and, Nat.and_assoc,
      (by decide : (4294967294 &&& 1 : Nat) = 0),
      (by decide : (1 &&& 1 : Nat) = 1)]

theorem checkClosed_setWroteHeader (z : GzipStreamWriter) (v : Bool) :
    checkClosed (setWroteHeader z v) = checkClosed z := by
  cases v <;>
    simp [checkClosed, setWroteHeader, setflag_and, Nat.and_assoc,
      (by decide : (4294967294 &&& 2 : Nat) = 2),
      (by decide : (1 &&& 2 : Nat) = 0)]

theorem checkActive_setWroteHeader (z : GzipStreamWriter) (v : Bool) :
    checkActiveDeflateStream (setWroteHeader z v) = checkActiveDeflateStream z := by
  cases v <;>
    simp [checkActiveDeflateStream, setWroteHeader, setflag_and, Nat.and_assoc,
      (by decide : (4294967294 &&& 4 : Nat) = 4),
      (by decide : (1 &&& 4 : Nat) = 0)]

theorem checkClosed_setClosed (z : GzipStreamWriter) (v : Bool) :
    checkClosed (setClosed z v) = v := by
  cases v <;>
    simp [checkClosed, setClosed, setflag_and, Nat.and_assoc,
      (by decide : (4294967293 &&& 2 : Nat) = 0),
      (by decide : (2 &&& 2 : Nat) = 2)]

theorem checkWroteHeader_setClosed (z : GzipStreamWriter) (v : Bool) :
    checkWroteHeader (setClosed z v) = checkWroteHeader z := by
  cases v <;>
    simp [checkWroteHeader, setClosed, setflag_and, Nat.and_assoc,
      (by decide : (4294967293 &&& 1 : Nat) = 1),
      (by decide : (2 &&& 1 : Nat) = 0)]

theorem checkActive_setClosed (z : GzipStreamWriter) (v : Bool) :
    checkActiveDeflateStream (setClosed z v) = checkActiveDeflateStream z := by
  cases v <;>
    simp [checkActiveDeflateStream, setClosed, setflag_and, Nat.and_assoc,
      (by decide : (4294967293 &&& 4 : Nat) = 4),
      (by decide : (2 &&& 4 : Nat) = 0)]

theorem checkActive_setActive (z : GzipStreamWriter) (v : Bool) :
    checkActiveDeflateStream (setActiveDeflateStream z v) = v := by
  cases v <;>
    simp [checkActiveDeflateStream, setActiveDeflateStream, setflag_and, Nat.and_assoc,
      (by decide : (4294967291 &&& 4 : Nat) = 0),
      (by decide : (4 &&& 4 : Nat) = 4)]

theorem checkWroteHeader_setActive (z : GzipStreamWriter) (v : Bool) :
    checkWroteHeader (setActiveDeflateStream z v) = checkWroteHeader z := by
  cases v <;>
    simp [checkWroteHeader, setActiveDeflateStream, setflag_and, Nat.and_assoc,
      (by decide : (4294967291 &&& 1 : Nat) = 1),
      (by decide : (4 &&& 1 : Nat) = 0)]

theorem checkClosed_setActive (z : GzipStreamWriter) (v : Bool) :
    checkClosed (setActiveDeflateStream z v) = checkClosed z := by
  cases v <;>
    simp [checkClosed, setActiveDeflateStream, setflag_and, Nat.and_assoc,
      (by decide : (4294967291 &&& 2 : Nat) = 2),
      (by decide : (4 &&& 2 : Nat) = 0)]

/-! ## Structural facts about the operations -/

theorem writeHeaderF_stateFlags (z : GzipStreamWriter) :
    ((writeHeaderF z).1).stateFlags = (z.stateFlags &&& 4294967294) ||| 1 := by
  simp only [writeHeaderF]
  repeat' split
  all_goals simp [setWroteHeader]

theorem writeHeaderF_preserves (z : GzipStreamWriter) :
    ((writeHeaderF z).1).digest = z.digest ∧ ((writeHeaderF z).1).size = z.size ∧
      ((writeHeaderF z).1).level = z.level ∧ ((writeHeaderF z).1).header = z.header := by
  simp only [writeHeaderF]
  repeat' split
  all_goals simp [setWroteHeader]

theorem writeHeaderF_err_some (z : GzipStreamWriter) (e : GzErr)
    (h : (writeHeaderF z).2.2 = some e) : ((writeHeaderF z).1).err = some e := by
  simp only [writeHeaderF] at h ⊢
  repeat' split at h <;> repeat' split
  all_goals simp_all [setWroteHeader]

theorem writeHeaderF_err_none (z : GzipStreamWriter)
    (h : (writeHeaderF z).2.2 = none) : ((writeHeaderF z).1).err = z.err := by
  simp only [writeHeaderF] at h ⊢
  repeat' split at h <;> repeat' split
  all_goals simp_all [setWroteHeader]

theorem writeHeaderF_comp (z : GzipStreamWriter)
    (h : (writeHeaderF z).2.2 = none) :
    ((writeHeaderF z).1).comp = some (z.comp.getD []) := by
  simp only [writeHeaderF] at h ⊢
  repeat' split at h <;> repeat' split
  all_goals cases hc : z.comp <;> simp_all [setWroteHeader]

theorem checkWroteHeader_writeHeaderF (z : GzipStreamWriter) :
    checkWroteHeader ((writeHeaderF z).1) = true := by
  simp [checkWroteHeader, writeHeaderF_stateFlags z, setflag_and, Nat.and_assoc,
    (by decide : (4294967294 &&& 1 : Nat) = 0),
    (by decide : (1 &&& 1 : Nat) = 1)]

theorem checkClosed_writeHeaderF (z : GzipStreamWriter) :
    checkClosed ((writeHeaderF z).1) = checkClosed z := by
  simp [checkClosed, writeHeaderF_stateFlags z, setflag_and, Nat.and_assoc,
    (by decide : (4294967294 &&& 2 : Nat) = 2),
    (by decide : (1 &&& 2 : Nat) = 0)]

theorem checkActive_writeHeaderF (z : GzipStreamWriter) :
    checkActiveDeflateStream ((writeHeaderF z).1) = checkActiveDeflateStream z := by
  simp [checkActiveDeflateStream, writeHeaderF_stateFlags z, setflag_and, Nat.and_assoc,
    (by decide : (4294967294 &&& 4 : Nat) = 4),
    (by decide : (1 &&& 4 : Nat) = 0)]

/-- A sink with an empty failure schedule accepts every write. -/
theorem destPut_nofail (d : Dest) (ev : OutEv) (hf : d.fails = []) :
    destPut d ev = (⟨[], d.out ++ [ev]⟩, none) := by
  obtain ⟨fs, o⟩ := d
  cases hf
  simp [destPut]

/-- Explicit result of `writeHeaderF` for a default (fields-free) header on
a never-failing sink. -/
theorem writeHeaderF_plain (z : GzipStreamWriter)
    (hx : z.header.extra = none) (hn : z.header.name = [])
    (hcm : z.header.comment = []) (hf : z.dest.fails = []) :
    writeHeaderF z =
      ({ z with dest := ⟨[], z.dest.out ++ [.bytes (headerBuf z.header z.level)]⟩,
                comp := some (z.comp.getD []),
                stateFlags := (z.stateFlags &&& 4294967294) ||| 1 }, 10, none) := by
  simp only [writeHeaderF, writeHeaderFields, destPut_nofail z.dest _ hf,
    setWroteHeader, hx, hn, hcm]
  cases hc : z.comp <;> simp

theorem crc32Update_nil (d : Nat) : crc32Update d [] = d := by
  simp [crc32Update, rawUpdate, Nat.xor_assoc]

theorem rawUpdate_nil (r : Nat) : rawUpdate r [] = r := rfl

/-- `Write` with a latched error is a no-op returning that error. -/
theorem writeF_latched (z : GzipStreamWriter) (p : List Nat) (e : GzErr)
    (h : z.err = some e) : writeF z p = (z, 0, some e) := by
  simp [writeF, h]

theorem checkClosed_writeF (z : GzipStreamWriter) (p : List Nat) :
    checkClosed ((writeF z p).1) = checkClosed z := by
  simp only [writeF]
  cases he : z.err with
  | some e => simp
  | none =>
    by_cases hw : checkWroteHeader z = false <;> simp only [hw, if_true, if_false]
    · cases hh : writeHeaderF z with
      | mk z1 r =>
        obtain ⟨n, e⟩ := r
        cases e with
        | some e =>
          have := checkClosed_writeHeaderF z
          simp_all
        | none =>
          have := checkClosed_writeHeaderF z
          rw [hh] at this
          simp_all [checkClosed, setActiveDeflateStream, setflag_and, Nat.and_assoc,
            (by decide : (4294967291 &&& 2 : Nat) = 2),
            (by decide : (4 &&& 2 : Nat) = 0)]
    · simp [checkClosed, setActiveDeflateStream, setflag_and, Nat.and_assoc,
        (by decide : (4294967291 &&& 2 : Nat) = 2),
        (by decide : (4 &&& 2 : Nat) = 0)]

/-- Explicit result of `Write` when the header is already written (and no
latched error): update the running checksum and size, mark the DEFLATE
stream active, buffer `p`. -/
theorem writeF_postHeader (z : GzipStreamWriter) (p : List Nat)
    (he : z.err = none) (hw : checkWroteHeader z = true) :
    writeF z p =
      ({ z with size := mask32 (z.size + p.length),
                digest := crc32Update z.digest p,
                comp := some (z.comp.getD [] ++ p),
                stateFlags := (z.stateFlags &&& 4294967291) ||| 4 }, p.length, none) := by
  simp [writeF, he, hw, setActiveDeflateStream]

/-- Explicit result of `Write` on a fresh-header state (default header
fields, never-failing sink): the gzip header is emitted first. -/
theorem writeF_preHeader (z : GzipStreamWriter) (p : List Nat)
    (he : z.err = none) (hw : checkWroteHeader z = false)
    (hx : z.header.extra = none) (hn : z.header.name = [])
    (hcm : z.header.comment = []) (hf : z.dest.fails = []) :
    writeF z p =
      ({ z with dest := ⟨[], z.dest.out ++ [.bytes (headerBuf z.header z.level)]⟩,
                size := mask32 (z.size + p.length),
                digest := crc32Update z.digest p,
                comp := some (z.comp.getD [] ++ p),
                stateFlags := (((z.stateFlags &&& 4294967294) ||| 1) &&& 4294967291) ||| 4 },
        p.length, none) := by
  simp only [writeF, he, hw, writeHeaderF_plain z hx hn hcm hf, setActiveDeflateStream]
  simp

theorem bit0_active (f : Nat) : ((f &&& 4294967291) ||| 4) &&& 1 = f &&& 1 := by
  rw [setflag_and, (by decide : (4294967291 &&& 1 : Nat) = 1),
    (by decide : (4 &&& 1 : Nat) = 0), Nat.or_zero]

theorem bit0_wh_active (f : Nat) :
    ((((f &&& 4294967294) ||| 1) &&& 4294967291) ||| 4) &&& 1 = 1 := by
  rw [setflag_and, (by decide : (4294967291 &&& 1 : Nat) = 1),
    (by decide : (4 &&& 1 : Nat) = 0), Nat.or_zero, setflag_and,
    (by decide : (4294967294 &&& 1 : Nat) = 0),
    (by decide : (1 &&& 1 : Nat) = 1), Nat.and_zero, Nat.zero_or]

theorem mask32_self (n : Nat) (h : n < two32) : mask32 n = n :=
  Nat.mod_eq_of_lt h

theorem mask32_add_left (a b : Nat) : mask32 (mask32 a + b) = mask32 (a + b) := by
  simp [mask32, Nat.mod_add_mod]

theorem bit2_wh (f : Nat) : (((f &&& 4294967294) ||| 1) &&& 4) = f &&& 4 := by
  rw [setflag_and, (by decide : (4294967294 &&& 4 : Nat) = 4),
    (by decide : (1 &&& 4 : Nat) = 0), Nat.or_zero]

/-- Statement-side abbreviation: the writer state reached by
`WriteCompressed` just after its (unconditional) header write and its
conditional sync-flush, before blob validation — on a default header and a
never-failing sink. -/
def wcAfterFlush (z : GzipStreamWriter) : GzipStreamWriter :=
  let z1 : GzipStreamWriter :=
    { z with dest := ⟨[], z.dest.out ++ [.bytes (headerBuf z.header z.level)]⟩,
             comp := some (z.comp.getD []),
             stateFlags := (z.stateFlags &&& 4294967294) ||| 1 }
  if checkActiveDeflateStream z = true then
    setActiveDeflateStream
      { z1 with dest := ⟨[], z1.dest.out ++ [.deflateFlush (z.comp.getD [])]⟩,
                comp := some [] } false
  else z1

/-- Explicit result of `WriteCompressed` on a parsable blob (default header
fields, never-failing sink): header write, conditional sync-flush, then the
payload splice with the trailer fields folded into `digest`/`size`. -/
theorem writeCompressedF_valid_shape (z : GzipStreamWriter) (p content : List Nat)
    (he : z.err = none) (hx : z.header.extra = none) (hn : z.header.name = [])
    (hcm : z.header.comment = []) (hf : z.dest.fails = [])
    (hlen : ¬ p.length < 18) (hds : getDeflateSlice p = some content) :
    writeCompressedF z p =
      ({ wcAfterFlush z with
           size := mask32 ((wcAfterFlush z).size + readLe32 p (p.length - 4)),
           digest := crc32Combine (wcAfterFlush z).digest (readLe32 p (p.length - 8))
                       (readLe32 p (p.length - 4)),
           dest := ⟨[], (wcAfterFlush z).dest.out ++ [.bytes content]⟩ },
        content.length, none) := by
  have hact1 : ∀ d c,
      checkActiveDeflateStream
        { z with dest := d, comp := c, stateFlags := (z.stateFlags &&& 4294967294) ||| 1 }
      = checkActiveDeflateStream z := by
    intro d c
    simp [checkActiveDeflateStream, bit2_wh]
  simp only [writeCompressedF, he]
  rw [writeHeaderF_plain z hx hn hcm hf]
  simp only [hact1]
  by_cases hact : checkActiveDeflateStream z = true <;>
    simp [hact, hlen, hds, destPut, wcAfterFlush, setActiveDeflateStream]

/-- Explicit result of `WriteCompressed` on an unparsable blob (default
header fields, never-failing sink): header write, conditional sync-flush,
then `ErrBlob` returned WITHOUT being latched and without touching
`digest`/`size`. -/
theorem writeCompressedF_invalid_shape (z : GzipStreamWriter) (p : List Nat)
    (he : z.err = none) (hx : z.header.extra = none) (hn : z.header.name = [])
    (hcm : z.header.comment = []) (hf : z.dest.fails = [])
    (hbad : p.length < 18 ∨ getDeflateSlice p = none) :
    writeCompressedF z p = (wcAfterFlush z, 10, some .errBlob) := by
  have hact1 : ∀ d c,
      checkActiveDeflateStream
        { z with dest := d, comp := c, stateFlags := (z.stateFlags &&& 4294967294) ||| 1 }
      = checkActiveDeflateStream z := by
    intro d c
    simp [checkActiveDeflateStream, bit2_wh]
  simp only [writeCompressedF, he]
  rw [writeHeaderF_plain z hx hn hcm hf]
  simp only [hact1]
  rcases hbad with hlen | hds <;>
    by_cases hact : checkActiveDeflateStream z = true <;>
      by_cases hl2 : p.length < 18 <;>
        simp_all [destPut, wcAfterFlush, setActiveDeflateStream]

/-- Explicit result of `Flush` when the header is already written (no
latched error, not closed, never-failing sink): exactly one sync-flush
write, and the active flag cleared. -/
theorem flushF_postHeader_shape (z : GzipStreamWriter)
    (he : z.err = none) (hcl : checkClosed z = false)
    (hwh : checkWroteHeader z = true) (hf : z.dest.fails = []) :
    flushF z =
      (setActiveDeflateStream
        { z with dest := ⟨[], z.dest.out ++ [.deflateFlush (z.comp.getD [])]⟩,
                 comp := some [] } false, none) := by
  simp only [flushF, he, hcl, hwh, Bool.false_eq_true, Bool.true_eq_false, if_false, ite_false,
    reduceIte, reduceCtorEq]
  rw [destPut_nofail _ _ hf]

/-- `Close` with a latched error returns it without touching the state. -/
theorem closeF_latched (z : GzipStreamWriter) (e : GzErr)
    (h : z.err = some e) : closeF z = (z, some e) := by
  simp [closeF, h]

/-- `Close` on an already-closed writer without a latched error is a no-op. -/
theorem closeF_closed (z : GzipStreamWriter)
    (he : z.err = none) (hcl : checkClosed z = true) : closeF z = (z, none) := by
  simp [closeF, he, hcl]

/-- A `Close` that proceeds past the guards leaves the writer closed. -/
theorem checkClosed_closeF (z : GzipStreamWriter)
    (he : z.err = none) (hcl : checkClosed z = false) :
    checkClosed ((closeF z).1) = true := by
  have hset := checkClosed_setClosed z true
  have hwf := checkClosed_writeF (setClosed z true) []
  simp only [closeF, he, hcl]
  by_cases hw : checkWroteHeader (setClosed z true) = false <;>
    simp only [hw, Bool.false_eq_true, Bool.true_eq_false, if_true, if_false, ite_true, ite_false] <;>
    repeat' split
  all_goals simp_all [checkClosed]

/-- Explicit result of `Close` when the header has already been written, on
a never-failing sink: compressor finalisation (always!), then the 8-byte
trailer. -/
theorem closeF_postHeader_shape (z : GzipStreamWriter)
    (he : z.err = none) (hcl : checkClosed z = false)
    (hwh : checkWroteHeader z = true) (hf : z.dest.fails = []) :
    closeF z = ({ setClosed z true with
                    dest := ⟨[], z.dest.out ++ [.deflateClose (z.comp.getD []),
                                 .bytes (le32 z.digest ++ le32 z.size)]⟩,
                    comp := some [], err := none }, none) := by
  have hwh0 : checkWroteHeader (setClosed z true) = true := by
    rw [checkWroteHeader_setClosed]; exact hwh
  have hf0 : (setClosed z true).dest.fails = [] := hf
  simp only [closeF, he, hcl, hwh0, Bool.false_eq_true, Bool.true_eq_false, if_false, ite_false,
    reduceIte, reduceCtorEq]
  rw [destPut_nofail _ _ hf0]
  simp only []
  rw [destPut_nofail _ _ rfl]
  simp [setClosed]

/-- Explicit result of `Close` on a writer that has not yet written its
header (default header fields, never-failing sink, in-range size): header,
compressor finalisation, trailer. -/
theorem closeF_preHeader_shape (z : GzipStreamWriter)
    (he : z.err = none) (hcl : checkClosed z = false)
    (hwh : checkWroteHeader z = false)
    (hx : z.header.extra = none) (hn : z.header.name = [])
    (hcm : z.header.comment = []) (hf : z.dest.fails = [])
    (hsz : z.size < two32) :
    (closeF z).2 = none ∧
    ((closeF z).1).dest.out
      = z.dest.out ++ [.bytes (headerBuf z.header z.level),
          .deflateClose (z.comp.getD []),
          .bytes (le32 z.digest ++ le32 z.size)] := by
  have hwh0 : checkWroteHeader (setClosed z true) = false := by
    rw [checkWroteHeader_setClosed]; exact hwh
  have hwrite := writeF_preHeader (setClosed z true) []
    (by simpa [setClosed] using he) hwh0
    (by simpa [setClosed] using hx) (by simpa [setClosed] using hn)
    (by simpa [setClosed] using hcm) (by simpa [setClosed] using hf)
  simp only [closeF, he, hcl, hwh0, Bool.false_eq_true, Bool.true_eq_false, if_false, ite_false,
    reduceIte, reduceCtorEq, hwrite]
  simp only [setClosed, he, reduceIte]
  rw [destPut_nofail _ _ rfl]
  simp only []
  rw [destPut_nofail _ _ rfl]
  simp [crc32Update_nil, mask32_self z.size hsz]

/-- `WriteCompressed` with a latched error is a no-op returning that error. -/
theorem writeCompressedF_latched (z : GzipStreamWriter) (p : List Nat) (e : GzErr)
    (h : z.err = some e) : writeCompressedF z p = (z, 0, some e) := by
  simp [writeCompressedF, h]

/-- `Flush` with a latched error is a no-op returning that error. -/
theorem flushF_latched (z : GzipStreamWriter) (e : GzErr)
    (h : z.err = some e) : flushF z = (z, some e) := by
  simp [flushF, h]

/-- Every error returned by `Write` is latched into the writer. -/
theorem writeF_latches (z : GzipStreamWriter) (p : List Nat) (e : GzErr)
    (h : (writeF z p).2.2 = some e) : ((writeF z p).1).err = some e := by
  simp only [writeF] at h ⊢
  cases he : z.err with
  | some e0 => simp_all
  | none =>
    simp only [he] at h ⊢
    by_cases hw : checkWroteHeader z = false <;>
      simp only [hw, Bool.false_eq_true, Bool.true_eq_false, if_true, if_false, ite_true, ite_false,
        reduceIte] at h ⊢
    · rcases hh : writeHeaderF z with ⟨z1, n, eo⟩
      simp only [hh] at h ⊢
      cases eo with
      | some e1 =>
        have h2 := writeHeaderF_err_some z e1 (by rw [hh])
        rw [hh] at h2
        simp_all
      | none => simp_all
    · simp_all

/-- Every error returned by `Close` is latched into the writer. -/
theorem closeF_latches (z : GzipStreamWriter) (e : GzErr)
    (h : (closeF z).2 = some e) : ((closeF z).1).err = some e := by
  simp only [closeF] at h ⊢
  cases he : z.err with
  | some e0 => simp_all
  | none =>
    simp only [he] at h ⊢
    by_cases hcl : checkClosed z = true <;>
      simp only [hcl, Bool.false_eq_true, Bool.true_eq_false, if_true, if_false, ite_true, ite_false,
        reduceIte] at h ⊢
    · simp_all
    · by_cases hw : checkWroteHeader (setClosed z true) = false <;>
        simp only [hw, Bool.false_eq_true, Bool.true_eq_false, if_true, if_false, ite_true, ite_false,
          reduceIte] at h ⊢
      · cases herr : ((writeF (setClosed z true) []).1).err with
        | some e1 => simp_all
        | none =>
          simp only [herr] at h ⊢
          rcases hdp : destPut ((writeF (setClosed z true) []).1).dest
              (OutEv.deflateClose (((writeF (setClosed z true) []).1).comp.getD []))
            with ⟨d, eo⟩
          simp only [hdp] at h ⊢
          cases eo with
          | some e1 => simp_all
          | none =>
            rcases hdp2 : destPut d
                (OutEv.bytes (le32 ((writeF (setClosed z true) []).1).digest
                  ++ le32 ((writeF (setClosed z true) []).1).size)) with ⟨d2, eo2⟩
            simp only [hdp2] at h ⊢
            cases eo2 <;> simp_all
      · rcases hdp : destPut (setClosed z true).dest
            (OutEv.deflateClose ((setClosed z true).comp.getD [])) with ⟨d, eo⟩
        simp only [hdp] at h ⊢
        cases eo with
        | some e1 => simp_all
        | none =>
          rcases hdp2 : destPut d
              (OutEv.bytes (le32 (setClosed z true).digest
                ++ le32 (setClosed z true).size)) with ⟨d2, eo2⟩
          simp only [hdp2] at h ⊢
          cases eo2 <;> simp_all

/-- Every error returned by `Flush` is latched into the writer. -/
theorem flushF_latches (z : GzipStreamWriter) (e : GzErr)
    (h : (flushF z).2 = some e) : ((flushF z).1).err = some e := by
  simp only [flushF] at h ⊢
  cases he : z.err with
  | some e0 => simp_all
  | none =>
    simp only [he] at h ⊢
    by_cases hcl : checkClosed z = true <;>
      simp only [hcl, Bool.false_eq_true, Bool.true_eq_false, if_true, if_false, ite_true, ite_false,
        reduceIte] at h ⊢
    · simp_all
    · by_cases hw : checkWroteHeader z = false <;>
        simp only [hw, Bool.false_eq_true, Bool.true_eq_false, if_true, if_false, ite_true, ite_false,
          reduceIte] at h ⊢
      · cases herr : ((writeF z []).2.2) with
        | some e1 =>
          simp only [herr] at h ⊢
          have h2 := writeF_latches z [] e1 herr
          simp_all
        | none =>
          simp only [herr] at h ⊢
          rcases hdp : destPut ((writeF z []).1).dest
              (OutEv.deflateFlush (((writeF z []).1).comp.getD [])) with ⟨d, eo⟩
          simp only [hdp] at h ⊢
          cases eo <;> simp_all [setActiveDeflateStream]
      · rcases hdp : destPut z.dest (OutEv.deflateFlush (z.comp.getD [])) with ⟨d, eo⟩
        simp only [hdp] at h ⊢
        cases eo <;> simp_all [setActiveDeflateStream]

/-- Every non-`ErrBlob` error returned by `WriteCompressed` is latched. -/
theorem writeCompressedF_latches_nonblob (z : GzipStreamWriter) (p : List Nat)
    (e : GzErr) (h : (writeCompressedF z p).2.2 = some e) (hne : e ≠ .errBlob) :
    ((writeCompressedF z p).1).err = some e := by
  simp only [writeCompressedF] at h ⊢
  cases he : z.err with
  | some e0 => simp_all
  | none =>
    simp only [he] at h ⊢
    rcases hh : writeHeaderF z with ⟨z1, n, eo⟩
    simp only [hh] at h ⊢
    cases eo with
    | some e1 =>
      have h2 := writeHeaderF_err_some z e1 (by rw [hh])
      rw [hh] at h2
      simp_all
    | none =>
      by_cases hact : checkActiveDeflateStream z1 = true <;>
        simp only [hact, Bool.false_eq_true, Bool.true_eq_false, if_true, if_false, ite_true, ite_false,
          reduceIte] at h ⊢
      · rcases hdp : destPut z1.dest (OutEv.deflateFlush (z1.comp.getD []))
          with ⟨d, eo2⟩
        simp only [hdp] at h ⊢
        cases eo2 with
        | some e2 => simp_all
        | none =>
          by_cases hlen : p.length < 18
          · simp_all
          · simp only [hlen, if_false, ite_false, reduceIte] at h ⊢
            rcases hds : getDeflateSlice p with _ | content <;>
              simp only [hds] at h ⊢
            · simp_all
            · simp only [setActiveDeflateStream] at h ⊢
              rcases hdp2 : destPut d (OutEv.bytes content) with ⟨d2, eo3⟩
              simp only [hdp2] at h ⊢
              cases eo3 <;> simp_all
      · by_cases hlen : p.length < 18
        · simp_all
        · simp only [hlen, if_false, ite_false, reduceIte] at h ⊢
          rcases hds : getDeflateSlice p with _ | content <;>
            simp only [hds] at h ⊢
          · simp_all
          · rcases hdp2 : destPut z1.dest (OutEv.bytes content) with ⟨d2, eo3⟩
            simp only [hdp2] at h ⊢
            cases eo3 <;> simp_all

/-! ## Whole-run model for the trailer identity (claim C1) -/

/-- One logical input of a run: a raw write, or a splice of blob bytes `p`
whose (externally known) decompressed content is `d`. -/
inductive WOp
  | raw (p : List Nat)
  | blob (p : List Nat) (d : List Nat)
deriving DecidableEq, Repr

/-- The decompressed content an op contributes to the logical stream. -/
def opContent : WOp → List Nat
  | .raw p => p
  | .blob _ d => d

/-- Run a sequence of `Write` / `WriteCompressed` calls. -/
def runOps (z : GzipStreamWriter) : List WOp → GzipStreamWriter
  | [] => z
  | .raw p :: rest => runOps (writeF z p).1 rest
  | .blob p _ :: rest => runOps (writeCompressedF z p).1 rest

/-- The concatenated decompressed content of a run, in write order. -/
def contents (ops : List WOp) : List Nat := (ops.map opContent).flatten

/-- A gzip blob `p` is a well-formed encoding of decompressed content `d`:
long enough, parsable header, and a trailer holding `CRC32(d)` and
`len(d) mod 2³²` with `len(d)` in `u32` range. -/
def blobSpec (p d : List Nat) : Prop :=
  18 ≤ p.length ∧ (getDeflateSlice p).isSome ∧
  readLe32 p (p.length - 8) = crc32 d ∧
  readLe32 p (p.length - 4) = d.length ∧ d.length < two32

/-- Every blob op of the run is well-formed for its stated content. -/
def opsValid : List WOp → Prop
  | [] => True
  | .raw _ :: rest => opsValid rest
  | .blob p d :: rest => blobSpec p d ∧ opsValid rest

/-- Run invariant for claim C1: no latched error, never-failing sink,
default header, not closed, and `digest`/`size` equal to the checksum and
masked length of the logical content written so far. -/
def WriterInv (z : GzipStreamWriter) (acc : List Nat) : Prop :=
  z.err = none ∧ z.dest.fails = [] ∧
  z.header = { comment := [], extra := none, modTime := 0, name := [], os := 255 } ∧
  checkClosed z = false ∧
  z.digest = crc32 acc ∧ z.size = mask32 acc.length

theorem crc32_nil : crc32 [] = 0 := crc32Update_nil 0

theorem checkClosed_wcAfterFlush (z : GzipStreamWriter) :
    checkClosed (wcAfterFlush z) = checkClosed z := by
  by_cases hact : checkActiveDeflateStream z = true <;>
    simp [wcAfterFlush, hact, setActiveDeflateStream, checkClosed, setflag_and,
      Nat.and_assoc, and_or_distrib_right_nat,
      (by decide : (4294967294 &&& 2 : Nat) = 2),
      (by decide : (4294967291 &&& 2 : Nat) = 2),
      (by decide : (4294967294 &&& 4294967291 : Nat) = 4294967290),
      (by decide : (4294967290 &&& 2 : Nat) = 2),
      (by decide : (1 &&& 4294967291 : Nat) = 1),
      (by decide : (1 &&& 2 : Nat) = 0)]

theorem wcAfterFlush_fields (z : GzipStreamWriter) :
    (wcAfterFlush z).err = z.err ∧ (wcAfterFlush z).digest = z.digest ∧
    (wcAfterFlush z).size = z.size ∧ (wcAfterFlush z).header = z.header ∧
    (wcAfterFlush z).dest.fails = [] := by
  by_cases hact : checkActiveDeflateStream z = true <;>
    simp [wcAfterFlush, hact, setActiveDeflateStream]

/-- `Write` preserves the run invariant, extending the content by `p`. -/
theorem WriterInv_writeF (z : GzipStreamWriter) (acc p : List Nat)
    (hI : WriterInv z acc) : WriterInv ((writeF z p).1) (acc ++ p) := by
  obtain ⟨he, hf, hh, hcl, hdg, hsz⟩ := hI
  have hx : z.header.extra = none := by rw [hh]
  have hn : z.header.name = [] := by rw [hh]
  have hcm : z.header.comment = [] := by rw [hh]
  have hclosed := checkClosed_writeF z p
  by_cases hw : checkWroteHeader z = true
  · rw [writeF_postHeader z p he hw] at hclosed ⊢
    refine ⟨he, hf, hh, by simpa using hclosed.trans hcl, ?_, ?_⟩
    · simpa [hdg] using (crc32Update_append acc p).symm.trans rfl |>.symm
    · simp [hsz, mask32_add_left]
  · have hw' : checkWroteHeader z = false := by simpa using hw
    rw [writeF_preHeader z p he hw' hx hn hcm hf] at hclosed ⊢
    refine ⟨he, rfl, hh, by simpa using hclosed.trans hcl, ?_, ?_⟩
    · simpa [hdg] using (crc32Update_append acc p).symm.trans rfl |>.symm
    · simp [hsz, mask32_add_left]

/-- `WriteCompressed` of a well-formed blob preserves the run invariant,
extending the content by the blob's decompressed content `d`. -/
theorem WriterInv_writeCompressedF (z : GzipStreamWriter) (acc p d : List Nat)
    (hI : WriterInv z acc) (hb : blobSpec p d) :
    WriterInv ((writeCompressedF z p).1) (acc ++ d) := by
  obtain ⟨he, hf, hh, hcl, hdg, hsz⟩ := hI
  obtain ⟨hlen, hsome, hcrc, hisz, hdlt⟩ := hb
  have hx : z.header.extra = none := by rw [hh]
  have hn : z.header.name = [] := by rw [hh]
  have hcm : z.header.comment = [] := by rw [hh]
  obtain ⟨content, hds⟩ := Option.isSome_iff_exists.mp hsome
  have hlen' : ¬ p.length < 18 := by omega
  rw [writeCompressedF_valid_shape z p content he hx hn hcm hf hlen' hds]
  obtain ⟨hwe, hwd, hws, hwh, hwf⟩ := wcAfterFlush_fields z
  refine ⟨by simp [hwe, he], by simp, by simp [hwh, hh], ?_, ?_, ?_⟩
  · have := checkClosed_wcAfterFlush z
    simp only [checkClosed] at this ⊢
    simpa using this.trans hcl
  · simp only [hcrc, hisz, hwd, hdg]
    exact crc32Combine_append acc d
  · simp only [hisz, hws, hsz, mask32_add_left]
    simp [mask32]

/-- The run invariant holds along every valid run. -/
theorem runOps_inv (ops : List WOp) (z : GzipStreamWriter) (acc : List Nat)
    (hv : opsValid ops) (hI : WriterInv z acc) :
    WriterInv (runOps z ops) (acc ++ contents ops) := by
  induction ops generalizing z acc with
  | nil => simpa [runOps, contents] using hI
  | cons op rest ih =>
    cases op with
    | raw p =>
      have h1 := WriterInv_writeF z acc p hI
      have h2 := ih ((writeF z p).1) (acc ++ p) hv h1
      simpa [runOps, contents, List.append_assoc] using h2
    | blob p d =>
      have h1 := WriterInv_writeCompressedF z acc p d hI hv.1
      have h2 := ih ((writeCompressedF z p).1) (acc ++ d) hv.2 h1
      simpa [runOps, contents, List.append_assoc] using h2

end GzipStream

/-- C6: calling Close twice yields the same result as calling it once: the
second Close leaves the writer (hence the destination's contents) unchanged
and returns the latched error if one is set, else nil. -/
theorem C6_close_idempotent (z : GzipStream.GzipStreamWriter) :
    GzipStream.closeF ((GzipStream.closeF z).1)
      = ((GzipStream.closeF z).1, ((GzipStream.closeF z).1).err) := by
  cases he : z.err with
  | some e =>
    rw [GzipStream.closeF_latched z e he]
    simp [GzipStream.closeF_latched z e he, GzipStream.closeF, he]
  | none =>
    by_cases hcl : GzipStream.checkClosed z = true
    · rw [GzipStream.closeF_closed z he hcl]
      simp [GzipStream.closeF_closed z he hcl, he]
    · have hcl' : GzipStream.checkClosed z = false := by
        simpa using hcl
      have h2 := GzipStream.checkClosed_closeF z he hcl'
      cases h1 : ((GzipStream.closeF z).1).err with
      | some e => simp [GzipStream.closeF_latched _ e h1, h1]
      | none => simp [GzipStream.closeF_closed _ h1 h2, h1]

/-- C8: `Reset` preserves the compression level and the cached compressor
(re-bound to the new destination), clears `header_written`, `closed` and
`deflate_active`, zeroes `digest` and `size`, clears the latched error, and
restores default header fields (`OS = 255`). -/
theorem C8_reset_frame (z : GzipStream.GzipStreamWriter) (w : GzipStream.Dest) :
    (GzipStream.resetF z w).level = z.level ∧
    (GzipStream.resetF z w).comp.isSome = z.comp.isSome ∧
    (GzipStream.resetF z w).dest = w ∧
    GzipStream.checkWroteHeader (GzipStream.resetF z w) = false ∧
    GzipStream.checkClosed (GzipStream.resetF z w) = false ∧
    GzipStream.checkActiveDeflateStream (GzipStream.resetF z w) = false ∧
    (GzipStream.resetF z w).digest = 0 ∧
    (GzipStream.resetF z w).size = 0 ∧
    (GzipStream.resetF z w).err = none ∧
    (GzipStream.resetF z w).header
      = { comment := [], extra := none, modTime := 0, name := [], os := 255 } := by
  cases hc : z.comp <;>
    simp [GzipStream.resetF, GzipStream.initF, GzipStream.setClosed,
      GzipStream.setWroteHeader, GzipStream.setActiveDeflateStream,
      GzipStream.checkWroteHeader, GzipStream.checkClosed,
      GzipStream.checkActiveDeflateStream, hc]

/-- C3: on a minimal FNAME blob (header `1f 8b 08 08 …`, name `"a"` with its
NUL terminator at index 11, one payload byte `0x42`, 8-byte trailer) the
parser stops AT the NUL instead of one past it: `getHeaderLength` returns
11 (the terminator's own index) and the extracted DEFLATE payload
`[0x00, 0x42]` still begins with the NUL terminator, contradicting the
spec's "advance `i` past the NUL". -/
theorem C3_fname_not_skipping_nul :
    GzipStream.getHeaderLength
        [31, 139, 8, 8, 0, 0, 0, 0, 0, 255, 97, 0, 66, 0, 0, 0, 0, 0, 0, 0, 0] = 11 ∧
    List.getD [31, 139, 8, 8, 0, 0, 0, 0, 0, 255, 97, 0, 66, 0, 0, 0, 0, 0, 0, 0, 0] 11 0
        = 0 ∧
    GzipStream.getDeflateSlice
        [31, 139, 8, 8, 0, 0, 0, 0, 0, 255, 97, 0, 66, 0, 0, 0, 0, 0, 0, 0, 0]
      = some [0, 66] := by
  refine ⟨?_, rfl, ?_⟩ <;> decide

/-- C10: on a writer with no latched error that is not closed (default
header fields, never-failing sink, in-range size), `Write` of an empty/nil
slice returns `(0, nil)`, leaves `digest` and `size` unchanged, emits the
gzip header exactly when it had not been written before, and afterwards the
header is marked written (which is what `Close` and `Flush` rely on via
their `Write(nil)` call). -/
theorem C10_write_empty (z : GzipStream.GzipStreamWriter)
    (he : z.err = none) (hcl : GzipStream.checkClosed z = false)
    (hx : z.header.extra = none) (hn : z.header.name = [])
    (hcm : z.header.comment = []) (hf : z.dest.fails = [])
    (hsz : z.size < GzipStream.two32) :
    (GzipStream.writeF z []).2.1 = 0 ∧
    (GzipStream.writeF z []).2.2 = none ∧
    ((GzipStream.writeF z []).1).digest = z.digest ∧
    ((GzipStream.writeF z []).1).size = z.size ∧
    ((GzipStream.writeF z []).1).dest.out
      = z.dest.out ++ (if GzipStream.checkWroteHeader z = true then []
          else [GzipStream.OutEv.bytes (GzipStream.headerBuf z.header z.level)]) ∧
    GzipStream.checkWroteHeader ((GzipStream.writeF z []).1) = true := by
  by_cases hw : GzipStream.checkWroteHeader z = true
  · rw [GzipStream.writeF_postHeader z [] he hw]
    refine ⟨rfl, rfl, GzipStream.crc32Update_nil z.digest, ?_, ?_, ?_⟩
    · simpa using GzipStream.mask32_self z.size hsz
    · simp [hw]
    · simpa [GzipStream.checkWroteHeader, GzipStream.bit0_active] using hw
  · have hw' : GzipStream.checkWroteHeader z = false := by simpa using hw
    rw [GzipStream.writeF_preHeader z [] he hw' hx hn hcm hf]
    refine ⟨rfl, rfl, GzipStream.crc32Update_nil z.digest, ?_, ?_, ?_⟩
    · simpa using GzipStream.mask32_self z.size hsz
    · simp [hw']
    · simp [GzipStream.checkWroteHeader, GzipStream.bit0_wh_active]

/-- Witness for C10 at a fresh writer: all hypotheses hold and the empty
write emits exactly the 10 default header bytes. -/
theorem C10_write_empty_witness :
    (GzipStream.writeF (GzipStream.newGzipStreamWriter ⟨[], []⟩) []).2.1 = 0 ∧
    (GzipStream.writeF (GzipStream.newGzipStreamWriter ⟨[], []⟩) []).2.2 = none ∧
    ((GzipStream.writeF (GzipStream.newGzipStreamWriter ⟨[], []⟩) []).1).digest
      = (GzipStream.newGzipStreamWriter ⟨[], []⟩).digest ∧
    ((GzipStream.writeF (GzipStream.newGzipStreamWriter ⟨[], []⟩) []).1).size
      = (GzipStream.newGzipStreamWriter ⟨[], []⟩).size ∧
    ((GzipStream.writeF (GzipStream.newGzipStreamWriter ⟨[], []⟩) []).1).dest.out
      = (GzipStream.newGzipStreamWriter ⟨[], []⟩).dest.out ++
          (if GzipStream.checkWroteHeader (GzipStream.newGzipStreamWriter ⟨[], []⟩) = true
           then []
           else [GzipStream.OutEv.bytes
             (GzipStream.headerBuf (GzipStream.newGzipStreamWriter ⟨[], []⟩).header
               (GzipStream.newGzipStreamWriter ⟨[], []⟩).level)]) ∧
    GzipStream.checkWroteHeader
        ((GzipStream.writeF (GzipStream.newGzipStreamWriter ⟨[], []⟩) []).1) = true :=
  C10_write_empty (GzipStream.newGzipStreamWriter ⟨[], []⟩)
    (by decide) (by decide) (by decide) (by decide) (by decide) (by decide) (by decide)

/-- C5 counterexample: write one valid gzip blob (DEFLATE payload `03 00`,
the final empty block) through `WriteCompressed` — so the last bytes at the
destination come from the splice — then `Close`.  The destination does NOT
receive only the 8-byte trailer: a compressor-finalisation write (an extra
final DEFLATE block) precedes it, refuting the claim at this input. -/
theorem C5_counterexample_close_after_splice :
    ((GzipStream.closeF
        ((GzipStream.writeCompressedF (GzipStream.newGzipStreamWriter ⟨[], []⟩)
          [31, 139, 8, 0, 0, 0, 0, 0, 0, 255, 3, 0, 0, 0, 0, 0, 0, 0, 0, 0]).1)).1).dest.out
      ≠ ((GzipStream.writeCompressedF (GzipStream.newGzipStreamWriter ⟨[], []⟩)
          [31, 139, 8, 0, 0, 0, 0, 0, 0, 255, 3, 0, 0, 0, 0, 0, 0, 0, 0, 0]).1).dest.out
        ++ [GzipStream.OutEv.bytes
              (GzipStream.le32 ((GzipStream.closeF
                ((GzipStream.writeCompressedF (GzipStream.newGzipStreamWriter ⟨[], []⟩)
                  [31, 139, 8, 0, 0, 0, 0, 0, 0, 255, 3, 0, 0, 0, 0, 0, 0, 0, 0, 0]).1)).1).digest
               ++ GzipStream.le32 ((GzipStream.closeF
                ((GzipStream.writeCompressedF (GzipStream.newGzipStreamWriter ⟨[], []⟩)
                  [31, 139, 8, 0, 0, 0, 0, 0, 0, 255, 3, 0, 0, 0, 0, 0, 0, 0, 0, 0]).1)).1).size)] := by
  decide

/-- C5 (amended): `Close` never skips compressor finalisation.  For every
writer whose header is written (no latched error, not closed, never-failing
sink) — in particular when the last destination bytes came from a splice —
`Close` appends exactly a compressor-finalisation write (a final DEFLATE
block) followed by the 8-byte trailer. -/
theorem C5_close_always_finalises (z : GzipStream.GzipStreamWriter)
    (he : z.err = none) (hcl : GzipStream.checkClosed z = false)
    (hwh : GzipStream.checkWroteHeader z = true) (hf : z.dest.fails = []) :
    (GzipStream.closeF z).2 = none ∧
    ((GzipStream.closeF z).1).dest.out
      = z.dest.out ++ [GzipStream.OutEv.deflateClose (z.comp.getD []),
          GzipStream.OutEv.bytes (GzipStream.le32 z.digest ++ GzipStream.le32 z.size)] := by
  rw [GzipStream.closeF_postHeader_shape z he hcl hwh hf]
  exact ⟨rfl, rfl⟩

/-- Witness for the amended C5 at the concrete post-splice state of the
counterexample run. -/
theorem C5_close_always_finalises_witness :
    (GzipStream.closeF
        ((GzipStream.writeCompressedF (GzipStream.newGzipStreamWriter ⟨[], []⟩)
          [31, 139, 8, 0, 0, 0, 0, 0, 0, 255, 3, 0, 0, 0, 0, 0, 0, 0, 0, 0]).1)).2 = none ∧
    ((GzipStream.closeF
        ((GzipStream.writeCompressedF (GzipStream.newGzipStreamWriter ⟨[], []⟩)
          [31, 139, 8, 0, 0, 0, 0, 0, 0, 255, 3, 0, 0, 0, 0, 0, 0, 0, 0, 0]).1)).1).dest.out
      = ((GzipStream.writeCompressedF (GzipStream.newGzipStreamWriter ⟨[], []⟩)
          [31, 139, 8, 0, 0, 0, 0, 0, 0, 255, 3, 0, 0, 0, 0, 0, 0, 0, 0, 0]).1).dest.out
        ++ [GzipStream.OutEv.deflateClose
              (((GzipStream.writeCompressedF (GzipStream.newGzipStreamWriter ⟨[], []⟩)
                [31, 139, 8, 0, 0, 0, 0, 0, 0, 255, 3, 0, 0, 0, 0, 0, 0, 0, 0, 0]).1).comp.getD []),
            GzipStream.OutEv.bytes
              (GzipStream.le32 ((GzipStream.writeCompressedF (GzipStream.newGzipStreamWriter ⟨[], []⟩)
                [31, 139, 8, 0, 0, 0, 0, 0, 0, 255, 3, 0, 0, 0, 0, 0, 0, 0, 0, 0]).1).digest
               ++ GzipStream.le32 ((GzipStream.writeCompressedF (GzipStream.newGzipStreamWriter ⟨[], []⟩)
                [31, 139, 8, 0, 0, 0, 0, 0, 0, 255, 3, 0, 0, 0, 0, 0, 0, 0, 0, 0]).1).size)] :=
  C5_close_always_finalises
    ((GzipStream.writeCompressedF (GzipStream.newGzipStreamWriter ⟨[], []⟩)
      [31, 139, 8, 0, 0, 0, 0, 0, 0, 255, 3, 0, 0, 0, 0, 0, 0, 0, 0, 0]).1)
    (by decide) (by decide) (by decide) (by decide)

/-- C7: sync-flush markers are emitted exactly at raw-write-to-splice
boundaries and at explicit `Flush` (writers with a default header and a
never-failing sink).  Conjunct 1: `WriteCompressed` emits a sync-flush iff
the DEFLATE stream is active, positioned after the header write and before
the spliced payload, and always leaves `deflate_active` clear.  Conjunct 2:
an explicit `Flush` emits exactly one sync-flush and clears the flag.
Conjunct 3: `Write` never emits a sync-flush (it only adds the lazy header
write).  Conjunct 4: `Close` emits no sync-flush (only compressor
finalisation and the trailer). -/
theorem C7_sync_flush_boundaries :
    (∀ (z : GzipStream.GzipStreamWriter) (p : List Nat),
      z.err = none → z.header.extra = none → z.header.name = [] →
      z.header.comment = [] → z.dest.fails = [] →
      ((GzipStream.writeCompressedF z p).1).dest.out
          = z.dest.out ++ [GzipStream.OutEv.bytes (GzipStream.headerBuf z.header z.level)]
            ++ (if GzipStream.checkActiveDeflateStream z = true
                then [GzipStream.OutEv.deflateFlush (z.comp.getD [])] else [])
            ++ (if p.length < 18 then []
                else match GzipStream.getDeflateSlice p with
                     | none => []
                     | some c => [GzipStream.OutEv.bytes c]) ∧
        GzipStream.checkActiveDeflateStream ((GzipStream.writeCompressedF z p).1) = false) ∧
    (∀ z : GzipStream.GzipStreamWriter,
      z.err = none → GzipStream.checkClosed z = false →
      GzipStream.checkWroteHeader z = true → z.dest.fails = [] →
      ((GzipStream.flushF z).1).dest.out
          = z.dest.out ++ [GzipStream.OutEv.deflateFlush (z.comp.getD [])] ∧
        GzipStream.checkActiveDeflateStream ((GzipStream.flushF z).1) = false) ∧
    (∀ (z : GzipStream.GzipStreamWriter) (p : List Nat),
      z.err = none → z.header.extra = none → z.header.name = [] →
      z.header.comment = [] → z.dest.fails = [] →
      ((GzipStream.writeF z p).1).dest.out
        = z.dest.out ++ (if GzipStream.checkWroteHeader z = true then []
            else [GzipStream.OutEv.bytes (GzipStream.headerBuf z.header z.level)])) ∧
    (∀ z : GzipStream.GzipStreamWriter,
      z.err = none → GzipStream.checkClosed z = false →
      GzipStream.checkWroteHeader z = true → z.dest.fails = [] →
      ((GzipStream.closeF z).1).dest.out
        = z.dest.out ++ [GzipStream.OutEv.deflateClose (z.comp.getD []),
            GzipStream.OutEv.bytes (GzipStream.le32 z.digest ++ GzipStream.le32 z.size)]) := by
  refine ⟨?_, ?_, ?_, ?_⟩
  · intro z p he hx hn hcm hf
    by_cases hval : ¬ p.length < 18 ∧ (GzipStream.getDeflateSlice p).isSome
    · obtain ⟨hlen, hsome⟩ := hval
      obtain ⟨c, hds⟩ := Option.isSome_iff_exists.mp hsome
      rw [GzipStream.writeCompressedF_valid_shape z p c he hx hn hcm hf hlen hds]
      constructor
      · by_cases hact : GzipStream.checkActiveDeflateStream z = true <;>
          simp [GzipStream.wcAfterFlush, hact, GzipStream.setActiveDeflateStream,
            hlen, hds]
      · by_cases hact : GzipStream.checkActiveDeflateStream z = true <;>
          simp_all [GzipStream.wcAfterFlush, GzipStream.setActiveDeflateStream,
            GzipStream.checkActiveDeflateStream, GzipStream.setflag_and, Nat.and_assoc,
            (by decide : (4294967291 &&& 4 : Nat) = 0),
            (by decide : (4294967294 &&& 4 : Nat) = 4),
            (by decide : (1 &&& 4 : Nat) = 0)]
    · have hbad : p.length < 18 ∨ GzipStream.getDeflateSlice p = none := by
        rcases Classical.em (p.length < 18) with h | h
        · exact Or.inl h
        · right
          rcases hds : GzipStream.getDeflateSlice p with _ | c
          · rfl
          · exact absurd ⟨h, by simp [hds]⟩ hval
      rw [GzipStream.writeCompressedF_invalid_shape z p he hx hn hcm hf hbad]
      constructor
      · by_cases hact : GzipStream.checkActiveDeflateStream z = true <;>
          rcases hbad with hb | hb <;>
          simp [GzipStream.wcAfterFlush, hact, GzipStream.setActiveDeflateStream, hb]
      · by_cases hact : GzipStream.checkActiveDeflateStream z = true <;>
          simp_all [GzipStream.wcAfterFlush, GzipStream.setActiveDeflateStream,
            GzipStream.checkActiveDeflateStream, GzipStream.setflag_and, Nat.and_assoc,
            (by decide : (4294967291 &&& 4 : Nat) = 0),
            (by decide : (4294967294 &&& 4 : Nat) = 4),
            (by decide : (1 &&& 4 : Nat) = 0)]
  · intro z he hcl hwh hf
    rw [GzipStream.flushF_postHeader_shape z he hcl hwh hf]
    exact ⟨rfl, GzipStream.checkActive_setActive _ false⟩
  · intro z p he hx hn hcm hf
    by_cases hw : GzipStream.checkWroteHeader z = true
    · rw [GzipStream.writeF_postHeader z p he hw]
      simp [hw]
    · have hw' : GzipStream.checkWroteHeader z = false := by simpa using hw
      rw [GzipStream.writeF_preHeader z p he hw' hx hn hcm hf]
      simp [hw']
  · intro z he hcl hwh hf
    rw [GzipStream.closeF_postHeader_shape z he hcl hwh hf]

/-- Witness for C7: its `WriteCompressed` conjunct applied after one raw
write (so the DEFLATE stream is active) with a concrete valid blob: the
sync-flush marker is emitted between the header bytes and the spliced
payload. -/
theorem C7_sync_flush_boundaries_witness :
    ((GzipStream.writeCompressedF
        ((GzipStream.writeF (GzipStream.newGzipStreamWriter ⟨[], []⟩) [65]).1)
        [31, 139, 8, 0, 0, 0, 0, 0, 0, 255, 3, 0, 0, 0, 0, 0, 0, 0, 0, 0]).1).dest.out
      = ((GzipStream.writeF (GzipStream.newGzipStreamWriter ⟨[], []⟩) [65]).1).dest.out
        ++ [GzipStream.OutEv.bytes (GzipStream.headerBuf
              ((GzipStream.writeF (GzipStream.newGzipStreamWriter ⟨[], []⟩) [65]).1).header
              ((GzipStream.writeF (GzipStream.newGzipStreamWriter ⟨[], []⟩) [65]).1).level)]
        ++ (if GzipStream.checkActiveDeflateStream
                ((GzipStream.writeF (GzipStream.newGzipStreamWriter ⟨[], []⟩) [65]).1) = true
            then [GzipStream.OutEv.deflateFlush
                   (((GzipStream.writeF (GzipStream.newGzipStreamWriter ⟨[], []⟩) [65]).1).comp.getD [])]
            else [])
        ++ (if ([31, 139, 8, 0, 0, 0, 0, 0, 0, 255, 3, 0, 0, 0, 0, 0, 0, 0, 0, 0] : List Nat).length < 18
            then []
            else match GzipStream.getDeflateSlice
                   [31, 139, 8, 0, 0, 0, 0, 0, 0, 255, 3, 0, 0, 0, 0, 0, 0, 0, 0, 0] with
                 | none => []
                 | some c => [GzipStream.OutEv.bytes c]) ∧
    GzipStream.checkActiveDeflateStream
      ((GzipStream.writeCompressedF
          ((GzipStream.writeF (GzipStream.newGzipStreamWriter ⟨[], []⟩) [65]).1)
          [31, 139, 8, 0, 0, 0, 0, 0, 0, 255, 3, 0, 0, 0, 0, 0, 0, 0, 0, 0]).1) = false :=
  C7_sync_flush_boundaries.1
    ((GzipStream.writeF (GzipStream.newGzipStreamWriter ⟨[], []⟩) [65]).1)
    [31, 139, 8, 0, 0, 0, 0, 0, 0, 255, 3, 0, 0, 0, 0, 0, 0, 0, 0, 0]
    (by decide) (by decide) (by decide) (by decide) (by decide)

/-- C4 counterexample: on a fresh writer, `WriteCompressed` of a 17-byte
(too short) blob returns `ErrBlob`, but the error is NOT latched
(`z.err` stays `none`) and a subsequent `Write` succeeds — refuting the
claim that ErrBlob is latched and that every subsequent operation returns
that same error. -/
theorem C4_counterexample_errBlob_not_latched :
    (GzipStream.writeCompressedF (GzipStream.newGzipStreamWriter ⟨[], []⟩)
        (List.replicate 17 0)).2.2 = some GzipStream.GzErr.errBlob ∧
    ((GzipStream.writeCompressedF (GzipStream.newGzipStreamWriter ⟨[], []⟩)
        (List.replicate 17 0)).1).err = none ∧
    (GzipStream.writeF
        ((GzipStream.writeCompressedF (GzipStream.newGzipStreamWriter ⟨[], []⟩)
          (List.replicate 17 0)).1) [65]).2.2 = none := by
  decide

/-- C4 (amended): errors are latched with one exception.  Conjuncts 1–4:
with a latched error every operation short-circuits, returning that same
error with no side effects (state unchanged), until `Reset` clears it
(conjunct 10).  Conjuncts 5–8: every error returned by `Write`, `Flush`
or `Close`, and every non-`ErrBlob` error returned by `WriteCompressed`,
is latched into the writer.  Conjunct 9: `ErrBlob` from blob validation is
the exception — it is returned but NOT latched, and leaves `digest`/`size`
(and the latched-error field) untouched, so subsequent operations proceed
normally. -/
theorem C4_error_latching :
    (∀ (z : GzipStream.GzipStreamWriter) (p : List Nat) (e : GzipStream.GzErr),
      z.err = some e → GzipStream.writeF z p = (z, 0, some e)) ∧
    (∀ (z : GzipStream.GzipStreamWriter) (p : List Nat) (e : GzipStream.GzErr),
      z.err = some e → GzipStream.writeCompressedF z p = (z, 0, some e)) ∧
    (∀ (z : GzipStream.GzipStreamWriter) (e : GzipStream.GzErr),
      z.err = some e → GzipStream.flushF z = (z, some e)) ∧
    (∀ (z : GzipStream.GzipStreamWriter) (e : GzipStream.GzErr),
      z.err = some e → GzipStream.closeF z = (z, some e)) ∧
    (∀ (z : GzipStream.GzipStreamWriter) (p : List Nat) (e : GzipStream.GzErr),
      (GzipStream.writeF z p).2.2 = some e →
      ((GzipStream.writeF z p).1).err = some e) ∧
    (∀ (z : GzipStream.GzipStreamWriter) (p : List Nat) (e : GzipStream.GzErr),
      (GzipStream.writeCompressedF z p).2.2 = some e →
      e ≠ GzipStream.GzErr.errBlob →
      ((GzipStream.writeCompressedF z p).1).err = some e) ∧
    (∀ (z : GzipStream.GzipStreamWriter) (e : GzipStream.GzErr),
      (GzipStream.flushF z).2 = some e → ((GzipStream.flushF z).1).err = some e) ∧
    (∀ (z : GzipStream.GzipStreamWriter) (e : GzipStream.GzErr),
      (GzipStream.closeF z).2 = some e → ((GzipStream.closeF z).1).err = some e) ∧
    (∀ (z : GzipStream.GzipStreamWriter) (p : List Nat),
      z.err = none → z.header.extra = none → z.header.name = [] →
      z.header.comment = [] → z.dest.fails = [] →
      (p.length < 18 ∨ GzipStream.getDeflateSlice p = none) →
      GzipStream.writeCompressedF z p
          = (GzipStream.wcAfterFlush z, 10, some GzipStream.GzErr.errBlob) ∧
        (GzipStream.wcAfterFlush z).err = none ∧
        (GzipStream.wcAfterFlush z).digest = z.digest ∧
        (GzipStream.wcAfterFlush z).size = z.size) ∧
    (∀ (z : GzipStream.GzipStreamWriter) (w : GzipStream.Dest),
      (GzipStream.resetF z w).err = none) := by
  refine ⟨GzipStream.writeF_latched, GzipStream.writeCompressedF_latched,
    GzipStream.flushF_latched, GzipStream.closeF_latched,
    GzipStream.writeF_latches, GzipStream.writeCompressedF_latches_nonblob,
    GzipStream.flushF_latches, GzipStream.closeF_latches, ?_, ?_⟩
  · intro z p he hx hn hcm hf hbad
    refine ⟨GzipStream.writeCompressedF_invalid_shape z p he hx hn hcm hf hbad,
      ?_, ?_, ?_⟩ <;>
      by_cases hact : GzipStream.checkActiveDeflateStream z = true <;>
        simp [GzipStream.wcAfterFlush, hact, GzipStream.setActiveDeflateStream, he]
  · intro z w
    cases hc : z.comp <;> simp [GzipStream.resetF, GzipStream.initF,
      GzipStream.setClosed, GzipStream.setWroteHeader,
      GzipStream.setActiveDeflateStream, hc]

/-- Witness for the amended C4 at its `ErrBlob` conjunct: a fresh writer
and a 17-byte blob satisfy the hypotheses, and the error is returned
without being latched. -/
theorem C4_error_latching_witness :
    GzipStream.writeCompressedF (GzipStream.newGzipStreamWriter ⟨[], []⟩)
        (List.replicate 17 0)
        = (GzipStream.wcAfterFlush (GzipStream.newGzipStreamWriter ⟨[], []⟩), 10,
            some GzipStream.GzErr.errBlob) ∧
      (GzipStream.wcAfterFlush (GzipStream.newGzipStreamWriter ⟨[], []⟩)).err = none ∧
      (GzipStream.wcAfterFlush (GzipStream.newGzipStreamWriter ⟨[], []⟩)).digest
        = (GzipStream.newGzipStreamWriter ⟨[], []⟩).digest ∧
      (GzipStream.wcAfterFlush (GzipStream.newGzipStreamWriter ⟨[], []⟩)).size
        = (GzipStream.newGzipStreamWriter ⟨[], []⟩).size :=
  C4_error_latching.2.2.2.2.2.2.2.2.1 (GzipStream.newGzipStreamWriter ⟨[], []⟩)
    (List.replicate 17 0) (by decide) (by decide) (by decide) (by decide) (by decide)
    (Or.inl (by decide))

/-- C1: for every finite sequence of `Write` and `WriteCompressed` calls on
a fresh writer (each spliced blob well-formed for its decompressed
content), the run latches no error, the writer's `digest` equals the CRC32
of the concatenation of all raw payloads and spliced decompressed contents
in write order, its `size` equals that concatenation's length mod 2³², and
a successful `Close` emits as its final destination write the 8-byte
trailer: little-endian CRC32 of the logical content followed by the
little-endian length mod 2³². -/
theorem C1_trailer_identity (ops : List GzipStream.WOp)
    (hv : GzipStream.opsValid ops) :
    (GzipStream.runOps (GzipStream.newGzipStreamWriter ⟨[], []⟩) ops).err = none ∧
    (GzipStream.runOps (GzipStream.newGzipStreamWriter ⟨[], []⟩) ops).digest
      = GzipStream.crc32 (GzipStream.contents ops) ∧
    (GzipStream.runOps (GzipStream.newGzipStreamWriter ⟨[], []⟩) ops).size
      = GzipStream.mask32 (GzipStream.contents ops).length ∧
    (GzipStream.closeF
      (GzipStream.runOps (GzipStream.newGzipStreamWriter ⟨[], []⟩) ops)).2 = none ∧
    ∃ pre, ((GzipStream.closeF
        (GzipStream.runOps (GzipStream.newGzipStreamWriter ⟨[], []⟩) ops)).1).dest.out
      = pre ++ [GzipStream.OutEv.bytes
          (GzipStream.le32 (GzipStream.crc32 (GzipStream.contents ops))
            ++ GzipStream.le32 (GzipStream.mask32 (GzipStream.contents ops).length))] := by
  have hI0 : GzipStream.WriterInv (GzipStream.newGzipStreamWriter ⟨[], []⟩) [] := by
    refine ⟨?_, ?_, ?_, ?_, ?_, ?_⟩ <;> decide
  have hInv := GzipStream.runOps_inv ops (GzipStream.newGzipStreamWriter ⟨[], []⟩) [] hv hI0
  rw [List.nil_append] at hInv
  obtain ⟨he, hf, hh, hcl, hdg, hsz⟩ := hInv
  refine ⟨he, hdg, hsz, ?_, ?_⟩ <;>
    by_cases hw : GzipStream.checkWroteHeader
      (GzipStream.runOps (GzipStream.newGzipStreamWriter ⟨[], []⟩) ops) = true
  · rw [GzipStream.closeF_postHeader_shape _ he hcl hw hf]
  · have hw' : GzipStream.checkWroteHeader
        (GzipStream.runOps (GzipStream.newGzipStreamWriter ⟨[], []⟩) ops) = false := by
      simpa using hw
    have hszlt : (GzipStream.runOps (GzipStream.newGzipStreamWriter ⟨[], []⟩) ops).size
        < GzipStream.two32 := by
      rw [hsz]
      exact Nat.mod_lt _ (by decide)
    exact (GzipStream.closeF_preHeader_shape _ he hcl hw'
      (by rw [hh]) (by rw [hh]) (by rw [hh]) hf hszlt).1
  · rw [GzipStream.closeF_postHeader_shape _ he hcl hw hf]
    refine ⟨(GzipStream.runOps (GzipStream.newGzipStreamWriter ⟨[], []⟩) ops).dest.out
      ++ [GzipStream.OutEv.deflateClose
        ((GzipStream.runOps (GzipStream.newGzipStreamWriter ⟨[], []⟩) ops).comp.getD [])], ?_⟩
    simp [hdg, hsz]
  · have hw' : GzipStream.checkWroteHeader
        (GzipStream.runOps (GzipStream.newGzipStreamWriter ⟨[], []⟩) ops) = false := by
      simpa using hw
    have hszlt : (GzipStream.runOps (GzipStream.newGzipStreamWriter ⟨[], []⟩) ops).size
        < GzipStream.two32 := by
      rw [hsz]
      exact Nat.mod_lt _ (by decide)
    have hshape := (GzipStream.closeF_preHeader_shape _ he hcl hw'
      (by rw [hh]) (by rw [hh]) (by rw [hh]) hf hszlt).2
    rw [hshape]
    refine ⟨(GzipStream.runOps (GzipStream.newGzipStreamWriter ⟨[], []⟩) ops).dest.out
      ++ [GzipStream.OutEv.bytes (GzipStream.headerBuf
            (GzipStream.runOps (GzipStream.newGzipStreamWriter ⟨[], []⟩) ops).header
            (GzipStream.runOps (GzipStream.newGzipStreamWriter ⟨[], []⟩) ops).level),
          GzipStream.OutEv.deflateClose
            ((GzipStream.runOps (GzipStream.newGzipStreamWriter ⟨[], []⟩) ops).comp.getD [])], ?_⟩
    simp [hdg, hsz]

/-- Witness for C1: one raw write of `"A"` followed by one splice of a
well-formed 20-byte gzip blob whose decompressed content is empty. -/
theorem C1_trailer_identity_witness :
    (GzipStream.runOps (GzipStream.newGzipStreamWriter ⟨[], []⟩)
        [GzipStream.WOp.raw [65],
         GzipStream.WOp.blob [31, 139, 8, 0, 0, 0, 0, 0, 0, 255, 3, 0, 0, 0, 0, 0, 0, 0, 0, 0] []]).err
      = none ∧
    (GzipStream.runOps (GzipStream.newGzipStreamWriter ⟨[], []⟩)
        [GzipStream.WOp.raw [65],
         GzipStream.WOp.blob [31, 139, 8, 0, 0, 0, 0, 0, 0, 255, 3, 0, 0, 0, 0, 0, 0, 0, 0, 0] []]).digest
      = GzipStream.crc32 (GzipStream.contents
          [GzipStream.WOp.raw [65],
           GzipStream.WOp.blob [31, 139, 8, 0, 0, 0, 0, 0, 0, 255, 3, 0, 0, 0, 0, 0, 0, 0, 0, 0] []]) ∧
    (GzipStream.runOps (GzipStream.newGzipStreamWriter ⟨[], []⟩)
        [GzipStream.WOp.raw [65],
         GzipStream.WOp.blob [31, 139, 8, 0, 0, 0, 0, 0, 0, 255, 3, 0, 0, 0, 0, 0, 0, 0, 0, 0] []]).size
      = GzipStream.mask32 (GzipStream.contents
          [GzipStream.WOp.raw [65],
           GzipStream.WOp.blob [31, 139, 8, 0, 0, 0, 0, 0, 0, 255, 3, 0, 0, 0, 0, 0, 0, 0, 0, 0] []]).length ∧
    (GzipStream.closeF (GzipStream.runOps (GzipStream.newGzipStreamWriter ⟨[], []⟩)
        [GzipStream.WOp.raw [65],
         GzipStream.WOp.blob [31, 139, 8, 0, 0, 0, 0, 0, 0, 255, 3, 0, 0, 0, 0, 0, 0, 0, 0, 0] []])).2
      = none ∧
    ∃ pre, ((GzipStream.closeF (GzipStream.runOps (GzipStream.newGzipStreamWriter ⟨[], []⟩)
        [GzipStream.WOp.raw [65],
         GzipStream.WOp.blob [31, 139, 8, 0, 0, 0, 0, 0, 0, 255, 3, 0, 0, 0, 0, 0, 0, 0, 0, 0] []])).1).dest.out
      = pre ++ [GzipStream.OutEv.bytes
          (GzipStream.le32 (GzipStream.crc32 (GzipStream.contents
              [GzipStream.WOp.raw [65],
               GzipStream.WOp.blob [31, 139, 8, 0, 0, 0, 0, 0, 0, 255, 3, 0, 0, 0, 0, 0, 0, 0, 0, 0] []]))
            ++ GzipStream.le32 (GzipStream.mask32 (GzipStream.contents
              [GzipStream.WOp.raw [65],
               GzipStream.WOp.blob [31, 139, 8, 0, 0, 0, 0, 0, 0, 255, 3, 0, 0, 0, 0, 0, 0, 0, 0, 0] []]).length))] :=
  C1_trailer_identity
    [GzipStream.WOp.raw [65],
     GzipStream.WOp.blob [31, 139, 8, 0, 0, 0, 0, 0, 0, 255, 3, 0, 0, 0, 0, 0, 0, 0, 0, 0] []]
    ⟨⟨by decide, by decide, by decide, by decide, by decide⟩, trivial⟩

/-- C2: for all byte strings `X` and `Y`, `crc32Combine(CRC32(X), CRC32(Y),
len(Y))` equals `CRC32(X ++ Y)`, where `CRC32` is the IEEE-polynomial
checksum with standard pre/post inversion as computed by the point-update
function. -/
theorem C2_crc32Combine_correct (X Y : List Nat) :
    GzipStream.crc32Combine (GzipStream.crc32 X) (GzipStream.crc32 Y) Y.length
      = GzipStream.crc32 (X ++ Y) :=
  GzipStream.crc32Combine_append X Y

namespace GzipStream

theorem get?_eq_some_getD (l : List Nat) (i : Nat) (h : i < l.length) :
    l.get? i = some (l.getD i 0) := by
  induction l generalizing i with
  | nil => simp at h
  | cons a t ih =>
    cases i with
    | zero => rfl
    | succ j => simpa using ih j (by simpa using h)

theorem extraStageChecked_eq (p : List Nat) :
    extraStageChecked p = some (extraStage p) := by
  unfold extraStageChecked extraStage
  by_cases h12 : p.length < 12
  · simp [h12]
  · rw [get?_eq_some_getD p 10 (by omega), get?_eq_some_getD p 11 (by omega)]
    simp only [h12, readLe16, Bool.false_eq_true, Bool.true_eq_false, if_false,
      ite_false, reduceIte]
    split <;> simp_all

theorem extraStage_le (p : List Nat) (h1 : Nat) (h : extraStage p = some h1) :
    h1 ≤ p.length := by
  simp only [extraStage] at h
  split at h
  · cases h
  · split at h
    · cases h
    · cases h
      omega

theorem scanZeroTermChecked_eq (p : List Nat) (hl : Nat) (hb : hl ≤ p.length) :
    scanZeroTermChecked p hl = some (scanZeroTerm p hl) := by
  simp only [scanZeroTermChecked, scanZeroTerm, hb, ite_true, reduceIte]
  split
  · rfl
  · split <;> simp_all

theorem scanZeroTerm_le (p : List Nat) (hl h2 : Nat)
    (h : scanZeroTerm p hl = some h2) : h2 ≤ p.length := by
  simp only [scanZeroTerm] at h
  split at h
  · cases h
  · split at h
    · cases h
    · cases h
      omega

theorem getHeaderLengthChecked_eq (p : List Nat) :
    getHeaderLengthChecked p = some (getHeaderLength p) := by
  unfold getHeaderLengthChecked getHeaderLength
  by_cases h10 : p.length < 10
  · rw [if_pos h10, if_pos h10]
  · rw [if_neg h10, if_neg h10,
      get?_eq_some_getD p 0 (by omega), get?_eq_some_getD p 1 (by omega),
      get?_eq_some_getD p 2 (by omega), get?_eq_some_getD p 3 (by omega)]
    simp only []
    by_cases hm : p.getD 0 0 ≠ 31 ∨ p.getD 1 0 ≠ 139 ∨ p.getD 2 0 ≠ 8
    · rw [if_pos hm, if_pos hm]
    · rw [if_neg hm, if_neg hm]
      have hs1 : (if p.getD 3 0 &&& 4 ≠ 0 then extraStageChecked p
            else some (some 10))
          = some (if p.getD 3 0 &&& 4 ≠ 0 then extraStage p else some 10) := by
        by_cases hf : p.getD 3 0 &&& 4 ≠ 0
        · rw [if_pos hf, if_pos hf, extraStageChecked_eq]
        · rw [if_neg hf, if_neg hf]
      rw [hs1]
      rcases ht1 : (if p.getD 3 0 &&& 4 ≠ 0 then extraStage p else some 10)
        with _ | h1
      · simp only [ht1]
      · have hb1 : h1 ≤ p.length := by
          by_cases hf : p.getD 3 0 &&& 4 ≠ 0
          · rw [if_pos hf] at ht1
            exact extraStage_le p h1 ht1
          · rw [if_neg hf] at ht1
            cases ht1
            omega
        simp only [ht1]
        have hs2 : (if p.getD 3 0 &&& 8 ≠ 0 then scanZeroTermChecked p h1
              else some (some h1))
            = some (if p.getD 3 0 &&& 8 ≠ 0 then scanZeroTerm p h1 else some h1) := by
          by_cases hf : p.getD 3 0 &&& 8 ≠ 0
          · rw [if_pos hf, if_pos hf, scanZeroTermChecked_eq p h1 hb1]
          · rw [if_neg hf, if_neg hf]
        rw [hs2]
        rcases ht2 : (if p.getD 3 0 &&& 8 ≠ 0 then scanZeroTerm p h1 else some h1)
          with _ | h2
        · simp only [ht2]
        · have hb2 : h2 ≤ p.length := by
            by_cases hf : p.getD 3 0 &&& 8 ≠ 0
            · rw [if_pos hf] at ht2
              exact scanZeroTerm_le p h1 h2 ht2
            · rw [if_neg hf] at ht2
              cases ht2
              exact hb1
          simp only [ht2]
          have hs3 : (if p.getD 3 0 &&& 16 ≠ 0 then scanZeroTermChecked p h2
                else some (some h2))
              = some (if p.getD 3 0 &&& 16 ≠ 0 then scanZeroTerm p h2
                  else some h2) := by
            by_cases hf : p.getD 3 0 &&& 16 ≠ 0
            · rw [if_pos hf, if_pos hf, scanZeroTermChecked_eq p h2 hb2]
            · rw [if_neg hf, if_neg hf]
          rw [hs3]
          rcases ht3 : (if p.getD 3 0 &&& 16 ≠ 0 then scanZeroTerm p h2
              else some h2) with _ | h3
          · simp only [ht3]
          · simp only [ht3]
            by_cases hf2 : p.getD 3 0 &&& 2 ≠ 0
            · rw [if_pos hf2, if_pos hf2]
              by_cases hlast : p.length < h3 + 2
              · rw [if_pos hlast, if_pos hlast]
              · rw [if_neg hlast, if_neg hlast]
            · rw [if_neg hf2, if_neg hf2]

theorem getDeflateSliceChecked_eq (p : List Nat) :
    getDeflateSliceChecked p = some (getDeflateSlice p) := by
  unfold getDeflateSliceChecked getDeflateSlice
  rw [getHeaderLengthChecked_eq]
  simp only []
  by_cases hneg : getHeaderLength p < 0
  · rw [if_pos hneg, if_pos hneg]
  · rw [if_neg hneg, if_neg hneg]
    by_cases hlen : p.length < (getHeaderLength p).toNat + 8
    · rw [if_pos hlen, if_pos hlen]
    · rw [if_neg hlen, if_neg hlen, if_pos (by omega)]

theorem readTrailerChecked_eq (p : List Nat) (h : 18 ≤ p.length) :
    readTrailerChecked p
      = some (readLe32 p (p.length - 8), readLe32 p (p.length - 4)) := by
  simp only [readTrailerChecked, readLe32]
  rw [get?_eq_some_getD p (p.length - 8) (by omega),
    get?_eq_some_getD p (p.length - 7) (by omega),
    get?_eq_some_getD p (p.length - 6) (by omega),
    get?_eq_some_getD p (p.length - 5) (by omega),
    get?_eq_some_getD p (p.length - 4) (by omega),
    get?_eq_some_getD p (p.length - 3) (by omega),
    get?_eq_some_getD p (p.length - 2) (by omega),
    get?_eq_some_getD p (p.length - 1) (by omega)]
  simp only []
  rw [(by omega : p.length - 8 + 1 = p.length - 7),
    (by omega : p.length - 8 + 2 = p.length - 6),
    (by omega : p.length - 8 + 3 = p.length - 5),
    (by omega : p.length - 4 + 1 = p.length - 3),
    (by omega : p.length - 4 + 2 = p.length - 2),
    (by omega : p.length - 4 + 3 = p.length - 1)]

end GzipStream

/-- C9: the blob-parsing path performs only in-bounds indexing: the
bounds-checked variants of `getHeaderLength`, `getDeflateSlice` and
`WriteCompressed`'s trailer reads (where every byte access and slice goes
through `Option` and an out-of-bounds access yields the outer `none`)
coincide with the total embeddings on every input — the out-of-bounds
branch is unreachable, and malformed inputs produce the error result
(`-1` / not-ok / `ErrBlob`) instead. -/
theorem C9_parser_in_bounds :
    (∀ p : List Nat,
      GzipStream.getHeaderLengthChecked p = some (GzipStream.getHeaderLength p)) ∧
    (∀ p : List Nat,
      GzipStream.getDeflateSliceChecked p = some (GzipStream.getDeflateSlice p)) ∧
    (∀ p : List Nat, 18 ≤ p.length →
      GzipStream.readTrailerChecked p
        = some (GzipStream.readLe32 p (p.length - 8),
            GzipStream.readLe32 p (p.length - 4))) :=
  ⟨GzipStream.getHeaderLengthChecked_eq, GzipStream.getDeflateSliceChecked_eq,
    GzipStream.readTrailerChecked_eq⟩

/-- Witness for C9 at a concrete 18-byte blob: the guarded trailer reads
succeed and agree with the total embedding. -/
theorem C9_parser_in_bounds_witness :
    GzipStream.readTrailerChecked (List.replicate 18 0)
      = some (GzipStream.readLe32 (List.replicate 18 0) ((List.replicate 18 (0 : Nat)).length - 8),
          GzipStream.readLe32 (List.replicate 18 0) ((List.replicate 18 (0 : Nat)).length - 4)) :=
  C9_parser_in_bounds.2.2 (List.replicate 18 0) (by decide)
